import Mathlib

/-!
Render-state recreation guards (ComponentRecreateRenderStateContext.h) and Trace/Config.h.

A shallow embedding of

* `FComponentRecreateRenderStateContext` (constructor and destructor, translated from
  `Engine/Source/Runtime/Engine/Public/ComponentRecreateRenderStateContext.h`),
* `FGlobalComponentRecreateRenderStateContext` (only declared in that header; its
  constructor and destructor are modelled from the specification),
* the preprocessor logic of `Engine/Source/Runtime/TraceLog/Public/Trace/Config.h`.

Pointers are addresses (`Nat`); a possibly-null pointer is an `Option`, `none` being
`nullptr`.  The engine objects live in a `World`: a heap of components, a heap of scene
sets, and the chronological list of the collaborator calls issued so far.
-/

namespace RecreateRenderState

/-! ## Data model -/

/-- Address of a `UActorComponent`. -/
abbrev UActorComponentPtr := Nat

/-- Address of an `FSceneInterface` (scenes are compared by pointer identity). -/
abbrev FSceneInterfacePtr := Nat

/-- Address of a `TSet<FSceneInterface*>`. -/
abbrev TSetPtr := Nat

/-- Modelled from the spec: `UActorComponent` (Components/ActorComponent.h) is not among
the sources.  The spec's component capability set has the boolean queries `IsRegistered`,
`IsRenderStateCreated`, `IsUnreachable`; `Scenes` lists "every scene relevant to this
component". -/
structure UActorComponent where
  IsRegistered : Bool
  IsRenderStateCreated : Bool
  IsUnreachable : Bool
  Scenes : List FSceneInterfacePtr
deriving DecidableEq, Repr

/-- Modelled from the spec: `TSet` (the engine container) is not among the sources.  The
spec's SceneRegistry is "a set of distinct scene handles"; the elements are kept in
insertion order and are pairwise distinct. -/
structure TSet where
  Elements : List FSceneInterfacePtr
  distinct : Elements.Nodup

/-- The empty set (a default-constructed `TSet`). -/
def TSet.Empty : TSet := ⟨[], List.nodup_nil⟩

/-- Modelled from the spec: `TSet::Add`; "insertion is idempotent (set semantics:
duplicate insert is a no-op)". -/
def TSet.Add (s : TSet) (x : FSceneInterfacePtr) : TSet :=
  if h : x ∈ s.Elements then s
  else ⟨s.Elements ++ [x],
    List.nodup_append.mpr ⟨s.distinct, List.nodup_singleton x, by
      intro a ha hb
      have : a = x := by simpa using hb
      exact h (this ▸ ha)⟩⟩

/-- Inserting several scenes, one `Add` each. -/
def TSet.AddAll (s : TSet) (xs : List FSceneInterfacePtr) : TSet :=
  xs.foldl TSet.Add s

/-- One collaborator call, as recorded in the world's chronological call list. -/
inductive RenderCall where
  /-- Call of `UActorComponent::DestroyRenderState_Concurrent` on the component at `c`. -/
  | DestroyRenderState_Concurrent (c : UActorComponentPtr)
  /-- Call of `UActorComponent::CreateRenderState_Concurrent` on the component at `c`. -/
  | CreateRenderState_Concurrent (c : UActorComponentPtr)
  /-- A call of the scene-update function `UpdateAllPrimitiveSceneInfosForSingleComponent`
  with its two arguments. -/
  | UpdateAllPrimitiveSceneInfosForSingleComponent (c : UActorComponentPtr)
      (registry : Option TSetPtr)
  /-- The immediate, unbatched single-component update run when no registry is supplied. -/
  | ImmediateUpdate (c : UActorComponentPtr)
  /-- The consolidated pass updating all primitive scene infos of scene `s`. -/
  | UpdateAllPrimitiveSceneInfos (s : FSceneInterfacePtr)
deriving DecidableEq, Repr

/-- The engine state the guards act on. -/
structure World where
  /-- The object heap: the component stored at each address. -/
  Components : UActorComponentPtr → UActorComponent
  /-- The scene sets stored at each address. -/
  Registries : TSetPtr → TSet
  /-- All collaborator calls issued so far, oldest first. -/
  Calls : List RenderCall

/-- Which assertion of the constructor fired. -/
inductive CheckFailure where
  /-- The assertion `check(InComponent)`. -/
  | NullComponent
  /-- The assertion `checkf(!InComponent->IsUnreachable(), ...)`. -/
  | UnreachableComponent
deriving DecidableEq, Repr

/-- Result of running an operation that may hit a fatal assertion: either it completes with a
value, or the process stops at a failed `check`; both carry the world reached. -/
inductive Outcome (α : Type) where
  | ok (value : α) (w : World)
  | fatal (failure : CheckFailure) (w : World)

/-- The world reached by an operation. -/
def Outcome.world {α : Type} : Outcome α → World
  | .ok _ w => w
  | .fatal _ w => w

/-- Whether the operation stopped at a fatal assertion. -/
def Outcome.isFatal {α : Type} : Outcome α → Bool
  | .ok _ _ => false
  | .fatal _ _ => true

/-! ## Collaborators -/

/-- Modelled from the spec: the assertion macros `check` and `checkf`
(Misc/AssertionMacros.h) are not among the sources.  A violated assertion "is fatal and
non-recoverable (process-terminating assertion), not a propagated error value": the
operation stops, in the world it had reached. -/
def CheckFailed {α : Type} (failure : CheckFailure) (w : World) : Outcome α :=
  Outcome.fatal failure w

/-- Modelled from the spec: `UActorComponent::DestroyRenderState_Concurrent` is not among the
sources.  The call is recorded, and by its contract it clears the render-state flag of the
component it is called on. -/
def DestroyRenderState_Concurrent (c : UActorComponentPtr) (w : World) : World :=
  { w with
    Components := Function.update w.Components c
      { w.Components c with IsRenderStateCreated := false }
    Calls := w.Calls ++ [RenderCall.DestroyRenderState_Concurrent c] }

/-- Modelled from the spec: `UActorComponent::CreateRenderState_Concurrent` is not among the
sources.  The call is recorded, and by its contract it sets the render-state flag of the
component it is called on. -/
def CreateRenderState_Concurrent (c : UActorComponentPtr) (w : World) : World :=
  { w with
    Components := Function.update w.Components c
      { w.Components c with IsRenderStateCreated := true }
    Calls := w.Calls ++ [RenderCall.CreateRenderState_Concurrent c] }

/-- Modelled from the spec: the scene-update function
`UpdateAllPrimitiveSceneInfosForSingleComponent` is only called, not defined, in the sources.
"For every scene relevant to this component, insert into the shared registry (if provided);
otherwise, perform an immediate single-component update (no batching)".  The call itself is
recorded with both arguments. -/
def UpdateAllPrimitiveSceneInfosForSingleComponent (c : UActorComponentPtr)
    (registry : Option TSetPtr) (w : World) : World :=
  match registry with
  | some r =>
    { w with
      Registries := Function.update w.Registries r
        ((w.Registries r).AddAll (w.Components c).Scenes)
      Calls := w.Calls ++ [RenderCall.UpdateAllPrimitiveSceneInfosForSingleComponent c (some r)] }
  | none =>
    { w with
      Calls := w.Calls ++ [RenderCall.UpdateAllPrimitiveSceneInfosForSingleComponent c none,
        RenderCall.ImmediateUpdate c] }

/-! ## FComponentRecreateRenderStateContext -/

/-- The per-component guard object: its two private members. -/
structure FComponentRecreateRenderStateContext where
  /-- Pointer to component we are recreating render state for -/
  Component : Option UActorComponentPtr
  ScenesToUpdateAllPrimitiveSceneInfos : Option TSetPtr
deriving DecidableEq, Repr

/-- The constructor
`FComponentRecreateRenderStateContext(UActorComponent* InComponent,
TSet<FSceneInterface*>* InScenesToUpdateAllPrimitiveSceneInfos = nullptr)`. -/
def FComponentRecreateRenderStateContext.Construct (InComponent : Option UActorComponentPtr)
    (InScenesToUpdateAllPrimitiveSceneInfos : Option TSetPtr) (w : World) :
    Outcome FComponentRecreateRenderStateContext :=
  match InComponent with
  | none => CheckFailed CheckFailure.NullComponent w
  | some c =>
    if (w.Components c).IsUnreachable then
      CheckFailed CheckFailure.UnreachableComponent w
    else if (w.Components c).IsRegistered && (w.Components c).IsRenderStateCreated then
      let w1 := DestroyRenderState_Concurrent c w
      let w2 := UpdateAllPrimitiveSceneInfosForSingleComponent c
        InScenesToUpdateAllPrimitiveSceneInfos w1
      Outcome.ok
        { Component := some c
          ScenesToUpdateAllPrimitiveSceneInfos := InScenesToUpdateAllPrimitiveSceneInfos } w2
    else
      Outcome.ok
        { Component := none
          ScenesToUpdateAllPrimitiveSceneInfos := InScenesToUpdateAllPrimitiveSceneInfos } w

/-- The destructor `~FComponentRecreateRenderStateContext()`. -/
def FComponentRecreateRenderStateContext.Destruct (self : FComponentRecreateRenderStateContext)
    (w : World) : Outcome Unit :=
  match self.Component with
  | some c =>
    if !(w.Components c).IsRenderStateCreated && (w.Components c).IsRegistered then
      let w1 := CreateRenderState_Concurrent c w
      let w2 := UpdateAllPrimitiveSceneInfosForSingleComponent c
        self.ScenesToUpdateAllPrimitiveSceneInfos w1
      Outcome.ok () w2
    else
      Outcome.ok () w
  | none => Outcome.ok () w

/-- The calls issued while the world went from `w` to `w'` (the call list only grows). -/
def CallsBetween (w w' : World) : List RenderCall :=
  w'.Calls.drop w.Calls.length

/-- Client code `{ FComponentRecreateRenderStateContext Outer(C, R1);
{ FComponentRecreateRenderStateContext Inner(C, R2); } }`: two guards nested on the same
component, nobody else touching the world in between. -/
def NestedGuards (c : UActorComponentPtr) (r1 r2 : Option TSetPtr) (w : World) : Outcome Unit :=
  match FComponentRecreateRenderStateContext.Construct (some c) r1 w with
  | Outcome.fatal f w1 => Outcome.fatal f w1
  | Outcome.ok outer w1 =>
    match FComponentRecreateRenderStateContext.Construct (some c) r2 w1 with
    | Outcome.fatal f w2 => Outcome.fatal f w2
    | Outcome.ok inner w2 =>
      match inner.Destruct w2 with
      | Outcome.fatal f w3 => Outcome.fatal f w3
      | Outcome.ok _ w3 => outer.Destruct w3

/-- The calls recorded by one run of the scene-update function for component `c`: the call
itself and, when no registry was supplied, the immediate update. -/
def NotificationCalls (c : UActorComponentPtr) (registry : Option TSetPtr) : List RenderCall :=
  match registry with
  | some r => [RenderCall.UpdateAllPrimitiveSceneInfosForSingleComponent c (some r)]
  | none => [RenderCall.UpdateAllPrimitiveSceneInfosForSingleComponent c none,
      RenderCall.ImmediateUpdate c]

/-- Whether a recorded call is a `DestroyRenderState_Concurrent` call. -/
def RenderCall.IsDestroy : RenderCall → Bool
  | RenderCall.DestroyRenderState_Concurrent _ => true
  | _ => false

/-- Whether a recorded call is a `CreateRenderState_Concurrent` call. -/
def RenderCall.IsCreate : RenderCall → Bool
  | RenderCall.CreateRenderState_Concurrent _ => true
  | _ => false

/-- Whether a recorded call is an update of the consolidated pass. -/
def RenderCall.IsConsolidated : RenderCall → Bool
  | RenderCall.UpdateAllPrimitiveSceneInfos _ => true
  | _ => false

/-- An example world.  Addresses 1, 2 and 3 hold reachable, registered components with render
state created, the first two on scene 10 ("SceneA") and the third on scene 20 ("SceneB");
every other address holds a reachable component that is not registered.  Every scene set is
empty and no call has been issued. -/
def ExampleWorld : World where
  Components := fun c =>
    if c = 1 ∨ c = 2 then
      { IsRegistered := true, IsRenderStateCreated := true, IsUnreachable := false,
        Scenes := [10] }
    else if c = 3 then
      { IsRegistered := true, IsRenderStateCreated := true, IsUnreachable := false,
        Scenes := [20] }
    else
      { IsRegistered := false, IsRenderStateCreated := false, IsUnreachable := false,
        Scenes := [] }
  Registries := fun _ => TSet.Empty
  Calls := []

/-! ## FGlobalComponentRecreateRenderStateContext -/

/-- The global guard object: its two private members.  The member set lives in the world's
heap of scene sets, at the address recorded here. -/
structure FGlobalComponentRecreateRenderStateContext where
  /-- The recreate contexts for the individual components. -/
  ComponentContexts : List FComponentRecreateRenderStateContext
  ScenesToUpdateAllPrimitiveSceneInfos : TSetPtr

/-- Modelled from the spec: the loop of the global constructor, which is not among the
sources.  "For each [enumerated component], constructs one Per-Component Guard, passing the
shared SceneRegistry owned by this global guard"; a failed assertion stops the process. -/
def ConstructContexts (registry : TSetPtr) :
    List UActorComponentPtr → World → Outcome (List FComponentRecreateRenderStateContext)
  | [], w => Outcome.ok [] w
  | c :: cs, w =>
    match FComponentRecreateRenderStateContext.Construct (some c) (some registry) w with
    | Outcome.fatal f w1 => Outcome.fatal f w1
    | Outcome.ok g w1 =>
      match ConstructContexts registry cs w1 with
      | Outcome.fatal f w2 => Outcome.fatal f w2
      | Outcome.ok gs w2 => Outcome.ok (g :: gs) w2

/-- Modelled from the spec: `FGlobalComponentRecreateRenderStateContext()` is declared in the
header but defined outside the sources.  `AllComponents` is the sequence produced by the
process-wide component enumeration (an external collaborator); `self` is the address of the
member set, which starts out empty.  Teardown "is NOT yet followed by any scene update
(batching deferred)". -/
def FGlobalComponentRecreateRenderStateContext.Construct (self : TSetPtr)
    (AllComponents : List UActorComponentPtr) (w : World) :
    Outcome FGlobalComponentRecreateRenderStateContext :=
  let w0 : World := { w with Registries := Function.update w.Registries self TSet.Empty }
  match ConstructContexts self AllComponents w0 with
  | Outcome.fatal f w1 => Outcome.fatal f w1
  | Outcome.ok gs w1 =>
    Outcome.ok { ComponentContexts := gs, ScenesToUpdateAllPrimitiveSceneInfos := self } w1

/-- Modelled from the spec: emptying `ComponentContexts` in the global destructor, which is
not among the sources: "destroys all owned Per-Component Guards (in owned-collection order)". -/
def DestructContexts : List FComponentRecreateRenderStateContext → World → Outcome Unit
  | [], w => Outcome.ok () w
  | g :: gs, w =>
    match g.Destruct w with
    | Outcome.fatal f w1 => Outcome.fatal f w1
    | Outcome.ok _ w1 => DestructContexts gs w1

/-- Modelled from the spec: `FGlobalComponentRecreateRenderStateContext::UpdateAllPrimitiveSceneInfos`
is declared in the header but defined outside the sources: "exactly one consolidated update
all primitive scene infos pass across every scene accumulated in the registry". -/
def FGlobalComponentRecreateRenderStateContext.UpdateAllPrimitiveSceneInfos
    (self : FGlobalComponentRecreateRenderStateContext) (w : World) : World :=
  { w with
    Calls := w.Calls ++
      (w.Registries self.ScenesToUpdateAllPrimitiveSceneInfos).Elements.map
        RenderCall.UpdateAllPrimitiveSceneInfos }

/-- Modelled from the spec: `~FGlobalComponentRecreateRenderStateContext()` is declared in the
header but defined outside the sources: all owned per-component guards are destroyed, then
the one consolidated pass runs. -/
def FGlobalComponentRecreateRenderStateContext.Destruct
    (self : FGlobalComponentRecreateRenderStateContext) (w : World) : Outcome Unit :=
  match DestructContexts self.ComponentContexts w with
  | Outcome.fatal f w1 => Outcome.fatal f w1
  | Outcome.ok _ w1 => Outcome.ok () (self.UpdateAllPrimitiveSceneInfos w1)

/-- Something other code may do while a guard is alive: the component at `c` gets
unregistered; nothing else changes. -/
def Unregister (c : UActorComponentPtr) (w : World) : World :=
  { w with
    Components := Function.update w.Components c
      { w.Components c with IsRegistered := false } }

/-- The scenario of the spec: a global guard, its member set at address 0, constructed in
`ExampleWorld` over the enumeration of the components at addresses 1, 2 and 3. -/
def ScenarioConstructed : Outcome FGlobalComponentRecreateRenderStateContext :=
  FGlobalComponentRecreateRenderStateContext.Construct 0 [1, 2, 3] ExampleWorld

/-- The global guard of the scenario: three per-component guards, all active, all notifying
the member set. -/
def ScenarioGuard : FGlobalComponentRecreateRenderStateContext where
  ComponentContexts := [⟨some 1, some 0⟩, ⟨some 2, some 0⟩, ⟨some 3, some 0⟩]
  ScenesToUpdateAllPrimitiveSceneInfos := 0

/-- The scenario of the spec, continued: the global guard is destroyed in the world its
construction left. -/
def ScenarioDestroyed : Outcome Unit :=
  ScenarioGuard.Destruct ScenarioConstructed.world

end RecreateRenderState

/-! ## Trace/Config.h -/

namespace TraceConfig

/-- A value an `#if` can evaluate.  The preprocessor computes in the widest integer types,
`intmax_t` and `uintmax_t`, which are 64 bits wide: a value is at least -2^63 and at most
2^64 - 1.  Anything outside that range is not a value the header can be given. -/
abbrev PreprocessorInt : Type :=
  { v : Int // -9223372036854775808 ≤ v ∧ v ≤ 18446744073709551615 }

/-- The preprocessor definitions the header reads and writes; `none` is "not defined".
The platform and build definitions come from `HAL/Platform.h` and the build system, which
are not among the sources, so every value in the preprocessor range is allowed.
`UE_TRACE_ENABLED` is only tested with `defined` and never evaluated, so what it stands
for is not restricted. -/
structure Defines where
  UE_TRACE_ENABLED : Option Int
  UE_BUILD_SHIPPING : Option PreprocessorInt
  IS_PROGRAM : Option PreprocessorInt
  PLATFORM_WINDOWS : Option PreprocessorInt
  PLATFORM_UNIX : Option PreprocessorInt
  PLATFORM_APPLE : Option PreprocessorInt
  PLATFORM_PS4 : Option PreprocessorInt
  PLATFORM_XBOXONE : Option PreprocessorInt
  PLATFORM_SWITCH : Option PreprocessorInt
  PLATFORM_ANDROID : Option PreprocessorInt
deriving DecidableEq

/-- Value of an identifier inside `#if`: an identifier that is not defined evaluates to 0. -/
def Value (m : Option PreprocessorInt) : Int :=
  match m with
  | some v => v.val
  | none => 0

/-- Truth of an `#if` operand: non-zero.  Within the preprocessor range the 64-bit
representation of a value is zero exactly when the value is 0. -/
def Truthy (m : Option PreprocessorInt) : Bool := decide (Value m ≠ 0)

/-- The value 0, as `#define X 0`. -/
def Zero : PreprocessorInt := ⟨0, by decide⟩

/-- The value 1, as `#define X 1`. -/
def One : PreprocessorInt := ⟨1, by decide⟩

/-- The largest value of the preprocessor range, 2^64 - 1. -/
def Largest : PreprocessorInt := ⟨18446744073709551615, by decide⟩

/-- The definitions in force after `Trace/Config.h` has been processed. -/
def Config_h (d : Defines) : Defines :=
  let d1 : Defines :=
    if d.UE_TRACE_ENABLED.isNone then
      if !Truthy d.UE_BUILD_SHIPPING && !Truthy d.IS_PROGRAM then
        if Truthy d.PLATFORM_WINDOWS || Truthy d.PLATFORM_UNIX || Truthy d.PLATFORM_APPLE
            || Truthy d.PLATFORM_PS4 || Truthy d.PLATFORM_XBOXONE || Truthy d.PLATFORM_SWITCH
            || Truthy d.PLATFORM_ANDROID then
          { d with UE_TRACE_ENABLED := some 1 }
        else d
      else d
    else d
  if d1.UE_TRACE_ENABLED.isNone then { d1 with UE_TRACE_ENABLED := some 0 } else d1

/-- An example configuration: a development (non-shipping, non-program) build for a Unix
platform that does not define `UE_TRACE_ENABLED` itself. -/
def UnixDevelopmentBuild : Defines where
  UE_TRACE_ENABLED := none
  UE_BUILD_SHIPPING := some Zero
  IS_PROGRAM := some Zero
  PLATFORM_WINDOWS := some Zero
  PLATFORM_UNIX := some One
  PLATFORM_APPLE := some Zero
  PLATFORM_PS4 := some Zero
  PLATFORM_XBOXONE := some Zero
  PLATFORM_SWITCH := some Zero
  PLATFORM_ANDROID := some Zero

end TraceConfig

/-! # Theorems -/

namespace RecreateRenderState

open FComponentRecreateRenderStateContext

/-! ## Basic facts about the call list and the collaborators -/

theorem callsBetween_of_append {w w' : World} {evs : List RenderCall}
    (h : w'.Calls = w.Calls ++ evs) : CallsBetween w w' = evs := by
  simp [CallsBetween, h]

theorem callsBetween_self (w : World) : CallsBetween w w = [] := by
  simp [CallsBetween]

/-- What the constructor does on a non-null, reachable, registered component with render
state: destroy, then notify, and remember the component. -/
theorem construct_active (c : UActorComponentPtr) (registry : Option TSetPtr) (w : World)
    (hReach : (w.Components c).IsUnreachable = false)
    (hReg : (w.Components c).IsRegistered = true)
    (hRS : (w.Components c).IsRenderStateCreated = true) :
    Construct (some c) registry w =
      Outcome.ok { Component := some c, ScenesToUpdateAllPrimitiveSceneInfos := registry }
        (UpdateAllPrimitiveSceneInfosForSingleComponent c registry
          (DestroyRenderState_Concurrent c w)) := by
  simp [Construct, hReach, hReg, hRS]

/-- What the constructor does on a non-null, reachable component that is unregistered or has
no render state: nothing, and it remembers no component. -/
theorem construct_inactive (c : UActorComponentPtr) (registry : Option TSetPtr) (w : World)
    (hReach : (w.Components c).IsUnreachable = false)
    (hInactive : (w.Components c).IsRegistered = false ∨
      (w.Components c).IsRenderStateCreated = false) :
    Construct (some c) registry w =
      Outcome.ok { Component := none, ScenesToUpdateAllPrimitiveSceneInfos := registry } w := by
  rcases hInactive with h | h <;> simp [Construct, hReach, h]

/-- The constructor stores the registry pointer it was given. -/
theorem construct_registry {p : Option UActorComponentPtr} {registry : Option TSetPtr}
    {w w1 : World} {g : FComponentRecreateRenderStateContext}
    (h : Construct p registry w = Outcome.ok g w1) :
    g.ScenesToUpdateAllPrimitiveSceneInfos = registry := by
  unfold Construct CheckFailed at h
  split at h
  · cases h
  · split at h
    · cases h
    · split at h <;> (cases h; rfl)

/-- A successful construction was on a non-null reachable component. -/
theorem construct_ok_reachable {p : Option UActorComponentPtr} {registry : Option TSetPtr}
    {w w1 : World} {g : FComponentRecreateRenderStateContext}
    (h : Construct p registry w = Outcome.ok g w1) :
    ∃ c, p = some c ∧ (w.Components c).IsUnreachable = false := by
  unfold Construct CheckFailed at h
  split at h
  · cases h
  · rename_i c
    split at h
    · cases h
    · rename_i hu
      exact ⟨c, rfl, by simpa using hu⟩

/-- The destructor of a guard that remembers `c`, run while `c` is registered and lacks
render state: create, then notify. -/
theorem destruct_rebuild (g : FComponentRecreateRenderStateContext) (c : UActorComponentPtr)
    (w : World) (hc : g.Component = some c)
    (hRS : (w.Components c).IsRenderStateCreated = false)
    (hReg : (w.Components c).IsRegistered = true) :
    g.Destruct w = Outcome.ok ()
      (UpdateAllPrimitiveSceneInfosForSingleComponent c g.ScenesToUpdateAllPrimitiveSceneInfos
        (CreateRenderState_Concurrent c w)) := by
  simp [Destruct, hc, hRS, hReg]

/-- The destructor in every other case: nothing. -/
theorem destruct_noop (g : FComponentRecreateRenderStateContext) (w : World)
    (h : ∀ c, g.Component = some c →
      (w.Components c).IsRenderStateCreated = true ∨ (w.Components c).IsRegistered = false) :
    g.Destruct w = Outcome.ok () w := by
  unfold Destruct
  split
  · rename_i c hc
    rcases h c hc with h | h <;> simp [h]
  · rfl

@[simp] theorem update_calls (c : UActorComponentPtr) (registry : Option TSetPtr) (w : World) :
    (UpdateAllPrimitiveSceneInfosForSingleComponent c registry w).Calls =
      w.Calls ++ NotificationCalls c registry := by
  cases registry <;> simp [UpdateAllPrimitiveSceneInfosForSingleComponent, NotificationCalls]

@[simp] theorem destroy_not_mem_notification (d c : UActorComponentPtr)
    (registry : Option TSetPtr) :
    RenderCall.DestroyRenderState_Concurrent d ∉ NotificationCalls c registry := by
  cases registry <;> simp [NotificationCalls]

@[simp] theorem create_not_mem_notification (d c : UActorComponentPtr)
    (registry : Option TSetPtr) :
    RenderCall.CreateRenderState_Concurrent d ∉ NotificationCalls c registry := by
  cases registry <;> simp [NotificationCalls]

@[simp] theorem count_destroy_notification (d c : UActorComponentPtr)
    (registry : Option TSetPtr) :
    (NotificationCalls c registry).count (RenderCall.DestroyRenderState_Concurrent d) = 0 :=
  List.count_eq_zero.mpr (destroy_not_mem_notification d c registry)

@[simp] theorem count_create_notification (d c : UActorComponentPtr)
    (registry : Option TSetPtr) :
    (NotificationCalls c registry).count (RenderCall.CreateRenderState_Concurrent d) = 0 :=
  List.count_eq_zero.mpr (create_not_mem_notification d c registry)

/-- The calls issued by a teardown: destroy, then the notification. -/
theorem teardown_calls (c : UActorComponentPtr) (registry : Option TSetPtr) (w : World) :
    (UpdateAllPrimitiveSceneInfosForSingleComponent c registry
      (DestroyRenderState_Concurrent c w)).Calls =
      w.Calls ++ (RenderCall.DestroyRenderState_Concurrent c :: NotificationCalls c registry) := by
  simp [DestroyRenderState_Concurrent]

/-- The calls issued by a rebuild: create, then the notification. -/
theorem rebuild_calls (c : UActorComponentPtr) (registry : Option TSetPtr) (w : World) :
    (UpdateAllPrimitiveSceneInfosForSingleComponent c registry
      (CreateRenderState_Concurrent c w)).Calls =
      w.Calls ++ (RenderCall.CreateRenderState_Concurrent c :: NotificationCalls c registry) := by
  simp [CreateRenderState_Concurrent]

@[simp] theorem update_components (c : UActorComponentPtr) (registry : Option TSetPtr)
    (w : World) :
    (UpdateAllPrimitiveSceneInfosForSingleComponent c registry w).Components = w.Components := by
  cases registry <;> rfl

@[simp] theorem destroy_calls (c : UActorComponentPtr) (w : World) :
    (DestroyRenderState_Concurrent c w).Calls =
      w.Calls ++ [RenderCall.DestroyRenderState_Concurrent c] := rfl

@[simp] theorem create_calls (c : UActorComponentPtr) (w : World) :
    (CreateRenderState_Concurrent c w).Calls =
      w.Calls ++ [RenderCall.CreateRenderState_Concurrent c] := rfl

@[simp] theorem destroy_registries (c : UActorComponentPtr) (w : World) :
    (DestroyRenderState_Concurrent c w).Registries = w.Registries := rfl

@[simp] theorem create_registries (c : UActorComponentPtr) (w : World) :
    (CreateRenderState_Concurrent c w).Registries = w.Registries := rfl

@[simp] theorem destroy_components (c : UActorComponentPtr) (w : World) :
    (DestroyRenderState_Concurrent c w).Components =
      Function.update w.Components c { w.Components c with IsRenderStateCreated := false } := rfl

@[simp] theorem create_components (c : UActorComponentPtr) (w : World) :
    (CreateRenderState_Concurrent c w).Components =
      Function.update w.Components c { w.Components c with IsRenderStateCreated := true } := rfl

theorem TSet.mem_Add (t : TSet) (x s : FSceneInterfacePtr) :
    s ∈ (t.Add x).Elements ↔ s ∈ t.Elements ∨ s = x := by
  unfold TSet.Add
  split
  · rename_i h
    constructor
    · exact Or.inl
    · rintro (h1 | h1)
      · exact h1
      · exact h1 ▸ h
  · simp

theorem TSet.mem_AddAll (xs : List FSceneInterfacePtr) (t : TSet) (s : FSceneInterfacePtr) :
    s ∈ (t.AddAll xs).Elements ↔ s ∈ t.Elements ∨ s ∈ xs := by
  induction xs generalizing t with
  | nil => simp [TSet.AddAll]
  | cons x xs ih =>
    have : t.AddAll (x :: xs) = (t.Add x).AddAll xs := rfl
    rw [this, ih, TSet.mem_Add]
    simp only [List.mem_cons]
    tauto

@[simp] theorem update_registries_none (c : UActorComponentPtr) (w : World) :
    (UpdateAllPrimitiveSceneInfosForSingleComponent c none w).Registries = w.Registries := rfl

@[simp] theorem update_registries_some (c : UActorComponentPtr) (r : TSetPtr) (w : World) :
    (UpdateAllPrimitiveSceneInfosForSingleComponent c (some r) w).Registries =
      Function.update w.Registries r ((w.Registries r).AddAll (w.Components c).Scenes) := rfl

@[simp] theorem countP_destroy_notification (c : UActorComponentPtr)
    (registry : Option TSetPtr) :
    (NotificationCalls c registry).countP RenderCall.IsDestroy = 0 := by
  cases registry <;> rfl

@[simp] theorem countP_create_notification (c : UActorComponentPtr)
    (registry : Option TSetPtr) :
    (NotificationCalls c registry).countP RenderCall.IsCreate = 0 := by
  cases registry <;> rfl

/-- Two nested guards on a registered component with render state: the outer guard tears
down and rebuilds, the inner one does nothing. -/
theorem nested_active (c : UActorComponentPtr) (r1 r2 : Option TSetPtr) (w : World)
    (hReach : (w.Components c).IsUnreachable = false)
    (hReg : (w.Components c).IsRegistered = true)
    (hRS : (w.Components c).IsRenderStateCreated = true) :
    NestedGuards c r1 r2 w = Outcome.ok ()
      (UpdateAllPrimitiveSceneInfosForSingleComponent c r1
        (CreateRenderState_Concurrent c
          (UpdateAllPrimitiveSceneInfosForSingleComponent c r1
            (DestroyRenderState_Concurrent c w)))) := by
  unfold NestedGuards
  rw [construct_active c r1 w hReach hReg hRS]
  simp only
  rw [construct_inactive c r2 _ (by simpa using hReach) (Or.inr (by simp))]
  simp only
  rw [destruct_noop _ _ (by intro d hd; cases hd)]
  simp only
  rw [destruct_rebuild _ c _ rfl (by simp) (by simpa using hReg)]

/-- Two nested guards on an unregistered component, or one without render state: nothing
happens at all. -/
theorem nested_inactive (c : UActorComponentPtr) (r1 r2 : Option TSetPtr) (w : World)
    (hReach : (w.Components c).IsUnreachable = false)
    (hInactive : (w.Components c).IsRegistered = false ∨
      (w.Components c).IsRenderStateCreated = false) :
    NestedGuards c r1 r2 w = Outcome.ok () w := by
  unfold NestedGuards
  rw [construct_inactive c r1 w hReach hInactive]
  simp only
  rw [construct_inactive c r2 w hReach hInactive]
  simp only
  rw [destruct_noop _ _ (by intro d hd; cases hd)]
  simp only
  rw [destruct_noop _ _ (by intro d hd; cases hd)]

theorem inactive_of_not_active (k : UActorComponent)
    (h : ¬ (k.IsRegistered = true ∧ k.IsRenderStateCreated = true)) :
    k.IsRegistered = false ∨ k.IsRenderStateCreated = false := by
  cases hr : k.IsRegistered <;> cases hs : k.IsRenderStateCreated <;> simp_all

/-! ## The per-component guard -/

/-- C1. On a non-null, reachable, registered component with render state created, the
constructor (with any registry argument, null included) succeeds, only extends the call
list, calls DestroyRenderState_Concurrent exactly once on that component and on no other,
and the component has no render state in the world right after construction. -/
theorem C1_construct_destroys_render_state (c : UActorComponentPtr)
    (registry : Option TSetPtr) (w : World)
    (hReach : (w.Components c).IsUnreachable = false)
    (hReg : (w.Components c).IsRegistered = true)
    (hRS : (w.Components c).IsRenderStateCreated = true) :
    ∃ g w1, Construct (some c) registry w = Outcome.ok g w1 ∧
      w1.Calls = w.Calls ++ CallsBetween w w1 ∧
      (∀ d, (CallsBetween w w1).count (RenderCall.DestroyRenderState_Concurrent d) =
        if d = c then 1 else 0) ∧
      (w1.Components c).IsRenderStateCreated = false := by
  refine ⟨_, _, construct_active c registry w hReach hReg hRS, ?_⟩
  have hcalls := teardown_calls c registry w
  rw [callsBetween_of_append hcalls]
  refine ⟨hcalls, ?_, by simp⟩
  intro d
  by_cases hd : d = c <;> simp [List.count_cons, hd]

theorem C1_witness :
    (ExampleWorld.Components 1).IsUnreachable = false ∧
    (ExampleWorld.Components 1).IsRegistered = true ∧
    (ExampleWorld.Components 1).IsRenderStateCreated = true ∧
    ∃ g w1, Construct (some 1) (some 0) ExampleWorld = Outcome.ok g w1 ∧
      w1.Calls = ExampleWorld.Calls ++ CallsBetween ExampleWorld w1 ∧
      (∀ d, (CallsBetween ExampleWorld w1).count (RenderCall.DestroyRenderState_Concurrent d) =
        if d = 1 then 1 else 0) ∧
      (w1.Components 1).IsRenderStateCreated = false :=
  ⟨rfl, rfl, rfl, C1_construct_destroys_render_state 1 (some 0) ExampleWorld rfl rfl rfl⟩

/-- C2. Take a guard constructed on a registered component with render state created.  In
any world at destruction time in which the component is still registered and has no render
state, the destructor succeeds, only extends the call list, calls
CreateRenderState_Concurrent exactly once on that component and on no other, and the
component has render state afterwards. -/
theorem C2_destruct_restores_render_state (c : UActorComponentPtr)
    (registry : Option TSetPtr) (w0 w1 : World) (g : FComponentRecreateRenderStateContext)
    (hReg0 : (w0.Components c).IsRegistered = true)
    (hRS0 : (w0.Components c).IsRenderStateCreated = true)
    (hC : Construct (some c) registry w0 = Outcome.ok g w1)
    (w2 : World)
    (hReg : (w2.Components c).IsRegistered = true)
    (hRS : (w2.Components c).IsRenderStateCreated = false) :
    ∃ w3, g.Destruct w2 = Outcome.ok () w3 ∧
      w3.Calls = w2.Calls ++ CallsBetween w2 w3 ∧
      (∀ d, (CallsBetween w2 w3).count (RenderCall.CreateRenderState_Concurrent d) =
        if d = c then 1 else 0) ∧
      (w3.Components c).IsRenderStateCreated = true := by
  obtain ⟨c', hc', hReach⟩ := construct_ok_reachable hC
  cases hc'
  rw [construct_active c registry w0 hReach hReg0 hRS0] at hC
  cases hC
  refine ⟨_, destruct_rebuild _ c w2 rfl hRS hReg, ?_⟩
  have hcalls := rebuild_calls c registry w2
  rw [callsBetween_of_append hcalls]
  refine ⟨hcalls, ?_, by simp⟩
  intro d
  by_cases hd : d = c <;> simp [List.count_cons, hd]

/-- C3. On a non-null, reachable component that is unregistered or has no render state, the
constructor succeeds and returns the world it was given (so no call of any kind is issued
and every registry is as before), and the destructor of the resulting guard, run in any
world whatever, succeeds and returns that world unchanged as well. -/
theorem C3_inactive_guard_is_noop (c : UActorComponentPtr) (registry : Option TSetPtr)
    (w : World)
    (hReach : (w.Components c).IsUnreachable = false)
    (hInactive : (w.Components c).IsRegistered = false ∨
      (w.Components c).IsRenderStateCreated = false) :
    ∃ g, Construct (some c) registry w = Outcome.ok g w ∧
      ∀ w2 : World, g.Destruct w2 = Outcome.ok () w2 := by
  refine ⟨_, construct_inactive c registry w hReach hInactive, ?_⟩
  intro w2
  exact destruct_noop _ w2 (by intro c hc; cases hc)

theorem C2_witness :
    ∃ w3, (FComponentRecreateRenderStateContext.mk (some 1) (some 0)).Destruct
        (Construct (some 1) (some 0) ExampleWorld).world = Outcome.ok () w3 ∧
      w3.Calls = (Construct (some 1) (some 0) ExampleWorld).world.Calls ++
        CallsBetween (Construct (some 1) (some 0) ExampleWorld).world w3 ∧
      (∀ d, (CallsBetween (Construct (some 1) (some 0) ExampleWorld).world w3).count
        (RenderCall.CreateRenderState_Concurrent d) = if d = 1 then 1 else 0) ∧
      (w3.Components 1).IsRenderStateCreated = true :=
  C2_destruct_restores_render_state 1 (some 0) ExampleWorld
    (Construct (some 1) (some 0) ExampleWorld).world ⟨some 1, some 0⟩ rfl rfl rfl
    (Construct (some 1) (some 0) ExampleWorld).world rfl rfl

theorem C3_witness :
    (ExampleWorld.Components 7).IsUnreachable = false ∧
    (ExampleWorld.Components 7).IsRegistered = false ∧
    ∃ g, Construct (some 7) none ExampleWorld = Outcome.ok g ExampleWorld ∧
      ∀ w2 : World, g.Destruct w2 = Outcome.ok () w2 :=
  ⟨rfl, rfl, C3_inactive_guard_is_noop 7 none ExampleWorld rfl (Or.inl rfl)⟩

/-- C4. For a guard obtained from a successful construction: the guard remembers a component
exactly when the constructor called DestroyRenderState_Concurrent on it (the guard is
active); in any world at destruction time the destructor calls CreateRenderState_Concurrent
if and only if the guard is active on a component that now lacks render state and is still
registered, and it then creates and notifies; in every other case (for instance the
component is no longer registered, or already has render state again) the destructor
returns the world unchanged, so it issues no call at all. -/
theorem C4_destruct_rebuilds_iff (p : Option UActorComponentPtr) (registry : Option TSetPtr)
    (w0 w1 : World) (g : FComponentRecreateRenderStateContext)
    (hC : Construct p registry w0 = Outcome.ok g w1) (w2 : World) :
    (∀ c, g.Component = some c ↔
      RenderCall.DestroyRenderState_Concurrent c ∈ CallsBetween w0 w1) ∧
    ((∃ c, RenderCall.CreateRenderState_Concurrent c ∈ CallsBetween w2 (g.Destruct w2).world) ↔
      ∃ c, RenderCall.DestroyRenderState_Concurrent c ∈ CallsBetween w0 w1 ∧
        (w2.Components c).IsRenderStateCreated = false ∧
        (w2.Components c).IsRegistered = true) ∧
    (∀ c, RenderCall.DestroyRenderState_Concurrent c ∈ CallsBetween w0 w1 →
      (w2.Components c).IsRenderStateCreated = false →
      (w2.Components c).IsRegistered = true →
      g.Destruct w2 = Outcome.ok ()
        (UpdateAllPrimitiveSceneInfosForSingleComponent c registry
          (CreateRenderState_Concurrent c w2))) ∧
    ((¬ ∃ c, RenderCall.DestroyRenderState_Concurrent c ∈ CallsBetween w0 w1 ∧
        (w2.Components c).IsRenderStateCreated = false ∧
        (w2.Components c).IsRegistered = true) →
      g.Destruct w2 = Outcome.ok () w2) := by
  have hreg := construct_registry hC
  obtain ⟨c0, hp, hReach⟩ := construct_ok_reachable hC
  subst hp
  have hActive : ∀ c, g.Component = some c ↔
      RenderCall.DestroyRenderState_Concurrent c ∈ CallsBetween w0 w1 := by
    intro c
    by_cases hA : (w0.Components c0).IsRegistered = true ∧
        (w0.Components c0).IsRenderStateCreated = true
    · rw [construct_active c0 registry w0 hReach hA.1 hA.2] at hC
      cases hC
      rw [callsBetween_of_append (teardown_calls c0 registry w0)]
      simp [eq_comm]
    · have hI : (w0.Components c0).IsRegistered = false ∨
          (w0.Components c0).IsRenderStateCreated = false := by
        by_cases h1 : (w0.Components c0).IsRegistered = true
        · right
          have : ¬ (w0.Components c0).IsRenderStateCreated = true := fun h2 => hA ⟨h1, h2⟩
          simpa using this
        · left
          simpa using h1
      rw [construct_inactive c0 registry w0 hReach hI] at hC
      cases hC
      simp [callsBetween_self]
  have hRebuild : ∀ c, RenderCall.DestroyRenderState_Concurrent c ∈ CallsBetween w0 w1 →
      (w2.Components c).IsRenderStateCreated = false →
      (w2.Components c).IsRegistered = true →
      g.Destruct w2 = Outcome.ok ()
        (UpdateAllPrimitiveSceneInfosForSingleComponent c registry
          (CreateRenderState_Concurrent c w2)) := by
    intro c hc hRS hReg
    have := destruct_rebuild g c w2 ((hActive c).mpr hc) hRS hReg
    rwa [hreg] at this
  have hNoop : (¬ ∃ c, RenderCall.DestroyRenderState_Concurrent c ∈ CallsBetween w0 w1 ∧
        (w2.Components c).IsRenderStateCreated = false ∧
        (w2.Components c).IsRegistered = true) →
      g.Destruct w2 = Outcome.ok () w2 := by
    intro hn
    apply destruct_noop
    intro c hc
    by_cases hRS : (w2.Components c).IsRenderStateCreated = true
    · exact Or.inl hRS
    · right
      by_cases hReg : (w2.Components c).IsRegistered = true
      · exact absurd ⟨c, (hActive c).mp hc, by simpa using hRS, hReg⟩ hn
      · simpa using hReg
  refine ⟨hActive, ⟨?_, ?_⟩, hRebuild, hNoop⟩
  · rintro ⟨c, hc⟩
    by_contra hn
    rw [hNoop hn] at hc
    simp [Outcome.world, callsBetween_self] at hc
  · rintro ⟨c, hc, hRS, hReg⟩
    refine ⟨c, ?_⟩
    rw [hRebuild c hc hRS hReg]
    simp only [Outcome.world]
    rw [callsBetween_of_append (rebuild_calls c registry w2)]
    simp

theorem C4_witness :
    Construct (some 1) none ExampleWorld =
      Outcome.ok ⟨some 1, none⟩ (Construct (some 1) none ExampleWorld).world ∧
    (FComponentRecreateRenderStateContext.mk (some 1) none).Destruct
        (Construct (some 1) none ExampleWorld).world =
      Outcome.ok ()
        (UpdateAllPrimitiveSceneInfosForSingleComponent 1 none
          (CreateRenderState_Concurrent 1 (Construct (some 1) none ExampleWorld).world)) :=
  ⟨rfl, (C4_destruct_rebuilds_iff (some 1) none ExampleWorld
    (Construct (some 1) none ExampleWorld).world ⟨some 1, none⟩ rfl
    (Construct (some 1) none ExampleWorld).world).2.2.1 1 (by decide) rfl rfl⟩

/-- C5. The constructor stops at a fatal assertion exactly when the component pointer is null
or the component is unreachable; when it does, the world it stops in is the world it was
given (nothing destroyed, nothing notified, no registry touched); and on every non-null
reachable component the constructor succeeds and the destructor of the resulting guard
succeeds in whatever world it is run. -/
theorem C5_construct_fatal_iff (p : Option UActorComponentPtr) (registry : Option TSetPtr)
    (w : World) :
    ((Construct p registry w).isFatal = true ↔
      (p = none ∨ ∃ c, p = some c ∧ (w.Components c).IsUnreachable = true)) ∧
    ((Construct p registry w).isFatal = true → (Construct p registry w).world = w) ∧
    (∀ c, p = some c → (w.Components c).IsUnreachable = false →
      ∃ g w1, Construct p registry w = Outcome.ok g w1 ∧
        ∀ w2 : World, (g.Destruct w2).isFatal = false) := by
  have hD : ∀ (g : FComponentRecreateRenderStateContext) (w2 : World),
      (g.Destruct w2).isFatal = false := by
    intro g w2
    unfold Destruct
    split
    · split <;> rfl
    · rfl
  cases p with
  | none => simp [Construct, CheckFailed, Outcome.isFatal, Outcome.world]
  | some c =>
    by_cases hu : (w.Components c).IsUnreachable = true
    · simp [Construct, CheckFailed, Outcome.isFatal, Outcome.world, hu]
    · have hu' : (w.Components c).IsUnreachable = false := by simpa using hu
      by_cases hA : (w.Components c).IsRegistered = true ∧
          (w.Components c).IsRenderStateCreated = true
      · rw [construct_active c registry w hu' hA.1 hA.2]
        exact ⟨by simp [Outcome.isFatal, hu'], by simp [Outcome.isFatal],
          fun _ _ _ => ⟨_, _, rfl, hD _⟩⟩
      · have hI : (w.Components c).IsRegistered = false ∨
            (w.Components c).IsRenderStateCreated = false := by
          by_cases h1 : (w.Components c).IsRegistered = true
          · right
            have : ¬ (w.Components c).IsRenderStateCreated = true := fun h2 => hA ⟨h1, h2⟩
            simpa using this
          · left
            simpa using h1
        rw [construct_inactive c registry w hu' hI]
        exact ⟨by simp [Outcome.isFatal, hu'], by simp [Outcome.isFatal],
          fun _ _ _ => ⟨_, _, rfl, hD _⟩⟩

theorem C5_witness :
    ((Construct none (some 0) ExampleWorld).isFatal = true ∧
      (Construct none (some 0) ExampleWorld).world = ExampleWorld) ∧
    ((ExampleWorld.Components 1).IsUnreachable = false ∧
      ∃ g w1, Construct (some 1) (some 0) ExampleWorld = Outcome.ok g w1 ∧
        ∀ w2 : World, (g.Destruct w2).isFatal = false) :=
  ⟨⟨rfl, (C5_construct_fatal_iff none (some 0) ExampleWorld).2.1 rfl⟩,
    ⟨rfl, (C5_construct_fatal_iff (some 1) (some 0) ExampleWorld).2.2 1 rfl rfl⟩⟩

/-- C6. Take a guard constructed on a registered component with render state created, so
that the constructor tears down.  The constructor issues exactly the destroy call followed
by one call of the scene-update function, with the registry pointer it was given; the guard
stores that pointer; and in any world at destruction time in which the destructor rebuilds
(component registered, no render state) it issues exactly the create call followed by one
call of the scene-update function with that same pointer.  In both phases: with a registry
the scenes of the component are added to the set at that address, every other set is as
before, and no immediate update is recorded; with a null registry the immediate
single-component update is recorded right after the call and every set is as before. -/
theorem C6_scene_notification_policy (c : UActorComponentPtr) (registry : Option TSetPtr)
    (w0 w1 : World) (g : FComponentRecreateRenderStateContext)
    (hReg0 : (w0.Components c).IsRegistered = true)
    (hRS0 : (w0.Components c).IsRenderStateCreated = true)
    (hC : Construct (some c) registry w0 = Outcome.ok g w1) :
    g.ScenesToUpdateAllPrimitiveSceneInfos = registry ∧
    (∀ r, registry = some r →
      CallsBetween w0 w1 = [RenderCall.DestroyRenderState_Concurrent c,
        RenderCall.UpdateAllPrimitiveSceneInfosForSingleComponent c (some r)] ∧
      (∀ s, s ∈ (w1.Registries r).Elements ↔
        s ∈ (w0.Registries r).Elements ∨ s ∈ (w0.Components c).Scenes) ∧
      (∀ r', r' ≠ r → w1.Registries r' = w0.Registries r')) ∧
    (registry = none →
      CallsBetween w0 w1 = [RenderCall.DestroyRenderState_Concurrent c,
        RenderCall.UpdateAllPrimitiveSceneInfosForSingleComponent c none,
        RenderCall.ImmediateUpdate c] ∧
      w1.Registries = w0.Registries) ∧
    (∀ w2 : World, (w2.Components c).IsRegistered = true →
      (w2.Components c).IsRenderStateCreated = false →
      (∀ r, registry = some r →
        CallsBetween w2 (g.Destruct w2).world = [RenderCall.CreateRenderState_Concurrent c,
          RenderCall.UpdateAllPrimitiveSceneInfosForSingleComponent c (some r)] ∧
        (∀ s, s ∈ ((g.Destruct w2).world.Registries r).Elements ↔
          s ∈ (w2.Registries r).Elements ∨ s ∈ (w2.Components c).Scenes) ∧
        (∀ r', r' ≠ r → (g.Destruct w2).world.Registries r' = w2.Registries r')) ∧
      (registry = none →
        CallsBetween w2 (g.Destruct w2).world = [RenderCall.CreateRenderState_Concurrent c,
          RenderCall.UpdateAllPrimitiveSceneInfosForSingleComponent c none,
          RenderCall.ImmediateUpdate c] ∧
        (g.Destruct w2).world.Registries = w2.Registries)) := by
  obtain ⟨c', hc', hReach⟩ := construct_ok_reachable hC
  cases hc'
  rw [construct_active c registry w0 hReach hReg0 hRS0] at hC
  cases hC
  refine ⟨rfl, ?_, ?_, ?_⟩
  · rintro r rfl
    rw [callsBetween_of_append (teardown_calls c (some r) w0)]
    refine ⟨rfl, ?_, ?_⟩
    · intro s
      simp [TSet.mem_AddAll]
    · intro r' hr'
      simp [Function.update_noteq hr']
  · rintro rfl
    rw [callsBetween_of_append (teardown_calls c none w0)]
    exact ⟨rfl, rfl⟩
  · intro w2 hReg hRS
    rw [destruct_rebuild _ c w2 rfl hRS hReg]
    simp only [Outcome.world]
    constructor
    · rintro r rfl
      rw [callsBetween_of_append (rebuild_calls c (some r) w2)]
      refine ⟨rfl, ?_, ?_⟩
      · intro s
        simp [TSet.mem_AddAll]
      · intro r' hr'
        simp [Function.update_noteq hr']
    · rintro rfl
      rw [callsBetween_of_append (rebuild_calls c none w2)]
      exact ⟨rfl, rfl⟩

theorem C6_witness :
    (ExampleWorld.Components 1).IsRegistered = true ∧
    (ExampleWorld.Components 1).IsRenderStateCreated = true ∧
    CallsBetween ExampleWorld (Construct (some 1) (some 0) ExampleWorld).world =
      [RenderCall.DestroyRenderState_Concurrent 1,
        RenderCall.UpdateAllPrimitiveSceneInfosForSingleComponent 1 (some 0)] :=
  ⟨rfl, rfl, ((C6_scene_notification_policy 1 (some 0) ExampleWorld
    (Construct (some 1) (some 0) ExampleWorld).world ⟨some 1, some 0⟩ rfl rfl rfl).2.1
      0 rfl).1⟩

/-- C9 (as amended). For a guard obtained from a successful construction on a component:
the stored component pointer is non-null exactly when the constructor issued a destroy
call; over the guard lifetime (constructor calls followed by destructor calls, the
destructor running in any world) the number of create calls is at most the number of
destroy calls and each is at most 1; if the component state is at destruction what the
constructor left, destruction returns IsRegistered and IsRenderStateCreated to their values
from before construction; and two guards nested on the component succeed and issue in total
exactly one destroy and one create when the component was registered with render state
created, and no destroy and no create otherwise. -/
theorem C9_guard_creates_only_what_it_destroyed (c : UActorComponentPtr)
    (registry : Option TSetPtr) (w0 w1 : World) (g : FComponentRecreateRenderStateContext)
    (hC : Construct (some c) registry w0 = Outcome.ok g w1) :
    (g.Component.isSome = true ↔
      (CallsBetween w0 w1).countP RenderCall.IsDestroy = 1) ∧
    (∀ w2 : World,
      (CallsBetween w0 w1 ++ CallsBetween w2 (g.Destruct w2).world).countP RenderCall.IsCreate
        ≤ (CallsBetween w0 w1 ++ CallsBetween w2 (g.Destruct w2).world).countP
          RenderCall.IsDestroy ∧
      (CallsBetween w0 w1 ++ CallsBetween w2 (g.Destruct w2).world).countP
          RenderCall.IsDestroy ≤ 1) ∧
    (∀ w2 : World, w2.Components c = w1.Components c →
      ((g.Destruct w2).world.Components c).IsRegistered = (w0.Components c).IsRegistered ∧
      ((g.Destruct w2).world.Components c).IsRenderStateCreated =
        (w0.Components c).IsRenderStateCreated) ∧
    (∀ r1 r2 : Option TSetPtr,
      (NestedGuards c r1 r2 w0).isFatal = false ∧
      (CallsBetween w0 (NestedGuards c r1 r2 w0).world).countP RenderCall.IsDestroy =
        (if (w0.Components c).IsRegistered = true ∧
          (w0.Components c).IsRenderStateCreated = true then 1 else 0) ∧
      (CallsBetween w0 (NestedGuards c r1 r2 w0).world).countP RenderCall.IsCreate =
        (if (w0.Components c).IsRegistered = true ∧
          (w0.Components c).IsRenderStateCreated = true then 1 else 0)) := by
  obtain ⟨c', hc', hReach⟩ := construct_ok_reachable hC
  cases hc'
  by_cases hA : (w0.Components c).IsRegistered = true ∧
      (w0.Components c).IsRenderStateCreated = true
  · rw [construct_active c registry w0 hReach hA.1 hA.2] at hC
    cases hC
    rw [callsBetween_of_append (teardown_calls c registry w0)]
    refine ⟨by simp [RenderCall.IsDestroy], ?_, ?_, ?_⟩
    · intro w2
      by_cases hB : (w2.Components c).IsRenderStateCreated = false ∧
          (w2.Components c).IsRegistered = true
      · rw [destruct_rebuild _ c w2 rfl hB.1 hB.2]
        simp only [Outcome.world]
        rw [callsBetween_of_append (rebuild_calls c registry w2)]
        simp [RenderCall.IsDestroy, RenderCall.IsCreate]
      · rw [destruct_noop _ w2 (by
          intro d hd
          cases hd
          cases h1 : (w2.Components c).IsRenderStateCreated <;>
            cases h2 : (w2.Components c).IsRegistered <;> simp_all)]
        simp [Outcome.world, callsBetween_self, RenderCall.IsDestroy, RenderCall.IsCreate]
    · intro w2 h2
      have hRS2 : (w2.Components c).IsRenderStateCreated = false := by simp [h2]
      have hReg2 : (w2.Components c).IsRegistered = true := by simp [h2, hA.1]
      rw [destruct_rebuild _ c w2 rfl hRS2 hReg2]
      simp [Outcome.world, hA.1, hA.2, hReg2]
    · intro r1 r2
      rw [nested_active c r1 r2 w0 hReach hA.1 hA.2]
      have hcalls : (UpdateAllPrimitiveSceneInfosForSingleComponent c r1
          (CreateRenderState_Concurrent c
            (UpdateAllPrimitiveSceneInfosForSingleComponent c r1
              (DestroyRenderState_Concurrent c w0)))).Calls = w0.Calls ++
            (RenderCall.DestroyRenderState_Concurrent c :: NotificationCalls c r1 ++
              RenderCall.CreateRenderState_Concurrent c :: NotificationCalls c r1) := by
        simp
      simp only [Outcome.world]
      rw [callsBetween_of_append hcalls]
      simp [Outcome.isFatal, RenderCall.IsDestroy, RenderCall.IsCreate, hA]
  · have hI := inactive_of_not_active _ hA
    rw [construct_inactive c registry w0 hReach hI] at hC
    cases hC
    have hD : ∀ w2 : World,
        (FComponentRecreateRenderStateContext.mk none registry).Destruct w2 =
          Outcome.ok () w2 := fun w2 => destruct_noop _ w2 (by intro d hd; cases hd)
    refine ⟨by simp [callsBetween_self], ?_, ?_, ?_⟩
    · intro w2
      simp [hD, Outcome.world, callsBetween_self]
    · intro w2 h2
      simp [hD, Outcome.world, h2]
    · intro r1 r2
      rw [nested_inactive c r1 r2 w0 hReach hI]
      simp [Outcome.isFatal, Outcome.world, callsBetween_self, hA]

theorem C9_witness :
    ((FComponentRecreateRenderStateContext.mk (some 1) none).Component.isSome = true ↔
      (CallsBetween ExampleWorld (Construct (some 1) none ExampleWorld).world).countP
        RenderCall.IsDestroy = 1) :=
  (C9_guard_creates_only_what_it_destroyed 1 none ExampleWorld
    (Construct (some 1) none ExampleWorld).world ⟨some 1, none⟩ rfl).1

/-- C9, the claim as stated fails: the component at address 7 of the example world is
non-null and reachable but not registered, and two guards nested on it issue no destroy
call and no create call at all, not one of each. -/
theorem C9_counterexample :
    (ExampleWorld.Components 7).IsUnreachable = false ∧
    (NestedGuards 7 none none ExampleWorld).isFatal = false ∧
    (CallsBetween ExampleWorld (NestedGuards 7 none none ExampleWorld).world).countP
      RenderCall.IsDestroy = 0 ∧
    (CallsBetween ExampleWorld (NestedGuards 7 none none ExampleWorld).world).countP
      RenderCall.IsCreate = 0 ∧
    ¬ ((CallsBetween ExampleWorld (NestedGuards 7 none none ExampleWorld).world).countP
        RenderCall.IsDestroy = 1 ∧
      (CallsBetween ExampleWorld (NestedGuards 7 none none ExampleWorld).world).countP
        RenderCall.IsCreate = 1) := by
  decide

/-! ## The global guard -/

/-- What the construction loop of the global guard achieves, in terms of the world `w` it
starts in. -/
theorem constructContexts_spec (r : TSetPtr) :
    ∀ (cs : List UActorComponentPtr) (w w' : World)
      (gs : List FComponentRecreateRenderStateContext),
      ConstructContexts r cs w = Outcome.ok gs w' →
      (∃ evs, w'.Calls = w.Calls ++ evs ∧
        ∀ e ∈ evs, e.IsCreate = false ∧ e.IsConsolidated = false) ∧
      (∀ p, w'.Components p =
        if p ∈ cs ∧ (w.Components p).IsRegistered = true ∧
            (w.Components p).IsRenderStateCreated = true
        then { w.Components p with IsRenderStateCreated := false }
        else w.Components p) ∧
      (∀ r', r' ≠ r → w'.Registries r' = w.Registries r') ∧
      (∀ s, s ∈ (w'.Registries r).Elements ↔ s ∈ (w.Registries r).Elements ∨
        ∃ c ∈ cs, (w.Components c).IsRegistered = true ∧
          (w.Components c).IsRenderStateCreated = true ∧ s ∈ (w.Components c).Scenes) ∧
      (∀ g ∈ gs, g.ScenesToUpdateAllPrimitiveSceneInfos = some r) ∧
      (∀ p, (∃ g ∈ gs, g.Component = some p) ↔
        p ∈ cs ∧ (w.Components p).IsRegistered = true ∧
          (w.Components p).IsRenderStateCreated = true) := by
  intro cs
  induction cs with
  | nil =>
    intro w w' gs h
    simp only [ConstructContexts] at h
    cases h
    simp
  | cons c cs ih =>
    intro w w' gs h
    rw [ConstructContexts] at h
    cases hg : Construct (some c) (some r) w with
    | fatal f wf => rw [hg] at h; cases h
    | ok g wa =>
      rw [hg] at h
      simp only at h
      cases hrest : ConstructContexts r cs wa with
      | fatal f wf => rw [hrest] at h; cases h
      | ok gs' wb =>
        rw [hrest] at h
        simp only at h
        cases h
        obtain ⟨⟨evs, hevs, hevs'⟩, hcomp, hother, hmem, hreg, hact⟩ := ih wa w' gs' hrest
        obtain ⟨c', hc', hReach⟩ := construct_ok_reachable hg
        cases hc'
        by_cases hA : (w.Components c).IsRegistered = true ∧
            (w.Components c).IsRenderStateCreated = true
        · rw [construct_active c (some r) w hReach hA.1 hA.2] at hg
          cases hg
          have hwa : ∀ p, (UpdateAllPrimitiveSceneInfosForSingleComponent c (some r)
              (DestroyRenderState_Concurrent c w)).Components p =
              if p = c then { w.Components c with IsRenderStateCreated := false }
              else w.Components p := by
            intro p
            by_cases hp : p = c
            · subst hp; simp
            · simp [hp, Function.update_noteq hp]
          refine ⟨?_, ?_, ?_, ?_, ?_, ?_⟩
          · refine ⟨RenderCall.DestroyRenderState_Concurrent c ::
              NotificationCalls c (some r) ++ evs, ?_, ?_⟩
            · rw [hevs, teardown_calls]
              simp
            · intro e he
              simp only [List.cons_append, List.mem_cons, List.mem_append] at he
              rcases he with rfl | he | he
              · exact ⟨rfl, rfl⟩
              · simp only [NotificationCalls, List.mem_singleton] at he
                subst he
                exact ⟨rfl, rfl⟩
              · exact hevs' e he
          · intro p
            rw [hcomp p, hwa p]
            by_cases hp : p = c
            · subst hp
              simp [hA.1, hA.2]
            · simp [hp]
          · intro r' hr'
            rw [hother r' hr']
            simp [Function.update_noteq hr']
          · intro s
            rw [hmem s]
            simp only [update_registries_some, Function.update_same, TSet.mem_AddAll,
              destroy_registries, destroy_components, List.mem_cons]
            constructor
            · rintro ((h1 | h1) | ⟨d, hd, h2, h3, h4⟩)
              · exact Or.inl h1
              · exact Or.inr ⟨c, Or.inl rfl, hA.1, hA.2, h1⟩
              · rw [hwa d] at h2 h3 h4
                by_cases hdc : d = c
                · subst hdc
                  simp at h3
                · simp only [hdc, if_false] at h2 h3 h4
                  exact Or.inr ⟨d, Or.inr hd, h2, h3, h4⟩
            · rintro (h1 | ⟨d, hd, h2, h3, h4⟩)
              · exact Or.inl (Or.inl h1)
              · by_cases hdc : d = c
                · subst hdc
                  exact Or.inl (Or.inr h4)
                · rcases hd with hd | hd
                  · exact absurd hd hdc
                  · refine Or.inr ⟨d, hd, ?_⟩
                    rw [hwa d]
                    simp only [hdc, if_false]
                    exact ⟨h2, h3, h4⟩
          · intro g hg
            rcases List.mem_cons.mp hg with rfl | hg
            · rfl
            · exact hreg g hg
          · intro p
            constructor
            · rintro ⟨g, hg, hgp⟩
              rcases List.mem_cons.mp hg with rfl | hg
              · cases hgp
                exact ⟨List.mem_cons_self _ _, hA.1, hA.2⟩
              · have := (hact p).mp ⟨g, hg, hgp⟩
                rw [hwa p] at this
                by_cases hpc : p = c
                · subst hpc
                  exact ⟨List.mem_cons_self _ _, hA.1, hA.2⟩
                · simp only [hpc, if_false] at this
                  exact ⟨List.mem_cons_of_mem _ this.1, this.2⟩
            · rintro ⟨hp, h2, h3⟩
              by_cases hpc : p = c
              · subst hpc
                exact ⟨_, List.mem_cons_self _ _, rfl⟩
              · rcases List.mem_cons.mp hp with hp | hp
                · exact absurd hp hpc
                · have : ∃ g ∈ gs', g.Component = some p := by
                    apply (hact p).mpr
                    rw [hwa p]
                    simp only [hpc, if_false]
                    exact ⟨hp, h2, h3⟩
                  obtain ⟨g, hg, hgp⟩ := this
                  exact ⟨g, List.mem_cons_of_mem _ hg, hgp⟩
        · have hI := inactive_of_not_active _ hA
          rw [construct_inactive c (some r) w hReach hI] at hg
          cases hg
          refine ⟨⟨evs, hevs, hevs'⟩, ?_, hother, ?_, ?_, ?_⟩
          · intro p
            rw [hcomp p]
            by_cases hpc : p = c
            · subst hpc
              simp [hA]
            · simp [hpc]
          · intro s
            rw [hmem s]
            constructor
            · rintro (h1 | ⟨d, hd, h2⟩)
              · exact Or.inl h1
              · exact Or.inr ⟨d, List.mem_cons_of_mem _ hd, h2⟩
            · rintro (h1 | ⟨d, hd, h2, h3, h4⟩)
              · exact Or.inl h1
              · rcases List.mem_cons.mp hd with rfl | hd
                · exact absurd ⟨h2, h3⟩ hA
                · exact Or.inr ⟨d, hd, h2, h3, h4⟩
          · intro g hg
            rcases List.mem_cons.mp hg with rfl | hg
            · rfl
            · exact hreg g hg
          · intro p
            constructor
            · rintro ⟨g, hg, hgp⟩
              rcases List.mem_cons.mp hg with rfl | hg
              · cases hgp
              · have := (hact p).mp ⟨g, hg, hgp⟩
                exact ⟨List.mem_cons_of_mem _ this.1, this.2⟩
            · rintro ⟨hp, h2, h3⟩
              rcases List.mem_cons.mp hp with rfl | hp
              · exact absurd ⟨h2, h3⟩ hA
              · obtain ⟨g, hg, hgp⟩ := (hact p).mpr ⟨hp, h2, h3⟩
                exact ⟨g, List.mem_cons_of_mem _ hg, hgp⟩

/-- What emptying the collection of per-component guards achieves, in terms of the world `w`
it starts in; all the guards notify the registry at `r`. -/
theorem destructContexts_spec (r : TSetPtr) :
    ∀ (gs : List FComponentRecreateRenderStateContext) (w : World),
      (∀ g ∈ gs, g.ScenesToUpdateAllPrimitiveSceneInfos = some r) →
      ∃ w', DestructContexts gs w = Outcome.ok () w' ∧
        (∃ evs, w'.Calls = w.Calls ++ evs ∧
          ∀ e ∈ evs, e.IsDestroy = false ∧ e.IsConsolidated = false) ∧
        (∀ p, (∃ g ∈ gs, g.Component = some p) →
          (w.Components p).IsRegistered = true →
          (w.Components p).IsRenderStateCreated = false →
          w'.Components p = { w.Components p with IsRenderStateCreated := true }) ∧
        (∀ p, ¬ ((∃ g ∈ gs, g.Component = some p) ∧
            (w.Components p).IsRegistered = true ∧
            (w.Components p).IsRenderStateCreated = false) →
          w'.Components p = w.Components p) ∧
        (∀ r', r' ≠ r → w'.Registries r' = w.Registries r') ∧
        (∀ s, s ∈ (w'.Registries r).Elements ↔ s ∈ (w.Registries r).Elements ∨
          ∃ p, (∃ g ∈ gs, g.Component = some p) ∧
            (w.Components p).IsRegistered = true ∧
            (w.Components p).IsRenderStateCreated = false ∧
            s ∈ (w.Components p).Scenes) := by
  intro gs
  induction gs with
  | nil =>
    intro w _
    refine ⟨w, rfl, ⟨[], by simp, by simp⟩, by simp, by simp, by simp, by simp⟩
  | cons g gs ih =>
    intro w hregs
    have hg : g.ScenesToUpdateAllPrimitiveSceneInfos = some r :=
      hregs g (List.mem_cons_self _ _)
    have hregs' : ∀ g' ∈ gs, g'.ScenesToUpdateAllPrimitiveSceneInfos = some r :=
      fun g' hg' => hregs g' (List.mem_cons_of_mem _ hg')
    by_cases hB : ∃ c, g.Component = some c ∧ (w.Components c).IsRenderStateCreated = false ∧
        (w.Components c).IsRegistered = true
    · obtain ⟨c, hc, hRS, hReg⟩ := hB
      have hstep := destruct_rebuild g c w hc hRS hReg
      rw [hg] at hstep
      obtain ⟨w', hw', ⟨evs, hevs, hevs'⟩, hset, hkeep, hother, hmem⟩ :=
        ih (UpdateAllPrimitiveSceneInfosForSingleComponent c (some r)
          (CreateRenderState_Concurrent c w)) hregs'
      have hwa : ∀ p, (UpdateAllPrimitiveSceneInfosForSingleComponent c (some r)
          (CreateRenderState_Concurrent c w)).Components p =
          if p = c then { w.Components c with IsRenderStateCreated := true }
          else w.Components p := by
        intro p
        by_cases hp : p = c
        · subst hp; simp
        · simp [hp, Function.update_noteq hp]
      refine ⟨w', ?_, ?_, ?_, ?_, ?_, ?_⟩
      · rw [DestructContexts, hstep]
        exact hw'
      · refine ⟨RenderCall.CreateRenderState_Concurrent c ::
          NotificationCalls c (some r) ++ evs, ?_, ?_⟩
        · rw [hevs, rebuild_calls]
          simp
        · intro e he
          simp only [List.cons_append, List.mem_cons, List.mem_append] at he
          rcases he with rfl | he | he
          · exact ⟨rfl, rfl⟩
          · simp only [NotificationCalls, List.mem_singleton] at he
            subst he
            exact ⟨rfl, rfl⟩
          · exact hevs' e he
      · intro p hp h2 h3
        by_cases hpc : p = c
        · subst hpc
          rw [hkeep p (by rw [hwa p]; simp), hwa p]
          simp
        · obtain ⟨g', hg', hgp⟩ := hp
          rcases List.mem_cons.mp hg' with rfl | hg'
          · rw [hc] at hgp
            cases hgp
            exact absurd rfl hpc
          · have := hset p ⟨g', hg', hgp⟩ (by rw [hwa p]; simpa [hpc] using h2)
              (by rw [hwa p]; simpa [hpc] using h3)
            rw [this, hwa p]
            simp [hpc]
      · intro p hp
        by_cases hpc : p = c
        · subst hpc
          exact absurd ⟨⟨g, List.mem_cons_self _ _, hc⟩, hReg, hRS⟩ hp
        · rw [hkeep p, hwa p]
          · simp [hpc]
          · rintro ⟨⟨g', hg', hgp⟩, h2, h3⟩
            rw [hwa p] at h2 h3
            simp only [hpc, if_false] at h2 h3
            exact hp ⟨⟨g', List.mem_cons_of_mem _ hg', hgp⟩, h2, h3⟩
      · intro r' hr'
        rw [hother r' hr']
        simp [Function.update_noteq hr']
      · intro s
        rw [hmem s]
        simp only [update_registries_some, Function.update_same, TSet.mem_AddAll,
          create_registries, create_components]
        constructor
        · rintro ((h1 | h1) | ⟨p, ⟨g', hg', hgp⟩, h2, h3, h4⟩)
          · exact Or.inl h1
          · exact Or.inr ⟨c, ⟨g, List.mem_cons_self _ _, hc⟩, hReg, hRS, h1⟩
          · rw [hwa p] at h2 h3 h4
            by_cases hpc : p = c
            · subst hpc
              simp at h3
            · simp only [hpc, if_false] at h2 h3 h4
              exact Or.inr ⟨p, ⟨g', List.mem_cons_of_mem _ hg', hgp⟩, h2, h3, h4⟩
        · rintro (h1 | ⟨p, ⟨g', hg', hgp⟩, h2, h3, h4⟩)
          · exact Or.inl (Or.inl h1)
          · by_cases hpc : p = c
            · subst hpc
              exact Or.inl (Or.inr h4)
            · rcases List.mem_cons.mp hg' with rfl | hg'
              · rw [hc] at hgp
                cases hgp
                exact absurd rfl hpc
              · refine Or.inr ⟨p, ⟨g', hg', hgp⟩, ?_⟩
                rw [hwa p]
                simp only [hpc, if_false]
                exact ⟨h2, h3, h4⟩
    · have hstep : g.Destruct w = Outcome.ok () w := by
        apply destruct_noop
        intro c hc
        cases h1 : (w.Components c).IsRenderStateCreated
        · right
          cases h2 : (w.Components c).IsRegistered
          · rfl
          · exact absurd ⟨c, hc, h1, h2⟩ hB
        · exact Or.inl rfl
      have hnot : ∀ p, g.Component = some p →
          ¬ ((w.Components p).IsRegistered = true ∧
            (w.Components p).IsRenderStateCreated = false) :=
        fun p hp h => hB ⟨p, hp, h.2, h.1⟩
      obtain ⟨w', hw', hcalls, hset, hkeep, hother, hmem⟩ := ih w hregs'
      refine ⟨w', ?_, hcalls, ?_, ?_, hother, ?_⟩
      · rw [DestructContexts, hstep]
        exact hw'
      · rintro p ⟨g', hg', hgp⟩ h2 h3
        rcases List.mem_cons.mp hg' with rfl | hg'
        · exact absurd ⟨h2, h3⟩ (hnot p hgp)
        · exact hset p ⟨g', hg', hgp⟩ h2 h3
      · intro p hp
        apply hkeep p
        rintro ⟨⟨g', hg', hgp⟩, h2, h3⟩
        exact hp ⟨⟨g', List.mem_cons_of_mem _ hg', hgp⟩, h2, h3⟩
      · intro s
        rw [hmem s]
        constructor
        · rintro (h1 | ⟨p, ⟨g', hg', hgp⟩, h2⟩)
          · exact Or.inl h1
          · exact Or.inr ⟨p, ⟨g', List.mem_cons_of_mem _ hg', hgp⟩, h2⟩
        · rintro (h1 | ⟨p, ⟨g', hg', hgp⟩, h2, h3, h4⟩)
          · exact Or.inl h1
          · rcases List.mem_cons.mp hg' with rfl | hg'
            · exact absurd ⟨h2, h3⟩ (hnot p hgp)
            · exact Or.inr ⟨p, ⟨g', hg', hgp⟩, h2, h3, h4⟩

/-- The construction loop succeeds on an enumeration of reachable components. -/
theorem constructContexts_succeeds (r : TSetPtr) :
    ∀ (cs : List UActorComponentPtr) (w : World),
      (∀ c ∈ cs, (w.Components c).IsUnreachable = false) →
      ∃ gs w', ConstructContexts r cs w = Outcome.ok gs w' := by
  intro cs
  induction cs with
  | nil => exact fun w _ => ⟨[], w, rfl⟩
  | cons c cs ih =>
    intro w hLive
    have hReach := hLive c (List.mem_cons_self _ _)
    by_cases hA : (w.Components c).IsRegistered = true ∧
        (w.Components c).IsRenderStateCreated = true
    · have hstep := construct_active c (some r) w hReach hA.1 hA.2
      obtain ⟨gs, w', h⟩ := ih (UpdateAllPrimitiveSceneInfosForSingleComponent c (some r)
        (DestroyRenderState_Concurrent c w)) (by
          intro d hd
          by_cases hdc : d = c
          · subst hdc
            simpa using hReach
          · simpa [Function.update_noteq hdc] using hLive d (List.mem_cons_of_mem _ hd))
      exact ⟨⟨some c, some r⟩ :: gs, w', by rw [ConstructContexts, hstep]; simp only [h]⟩
    · have hstep := construct_inactive c (some r) w hReach (inactive_of_not_active _ hA)
      obtain ⟨gs, w', h⟩ := ih w (fun d hd => hLive d (List.mem_cons_of_mem _ hd))
      exact ⟨⟨none, some r⟩ :: gs, w', by rw [ConstructContexts, hstep]; simp only [h]⟩

/-- The global constructor succeeds on an enumeration of reachable components. -/
theorem global_construct_succeeds (self : TSetPtr) (comps : List UActorComponentPtr)
    (w0 : World) (hLive : ∀ c ∈ comps, (w0.Components c).IsUnreachable = false) :
    ∃ G w1, FGlobalComponentRecreateRenderStateContext.Construct self comps w0 =
      Outcome.ok G w1 := by
  obtain ⟨gs, w1, h⟩ := constructContexts_succeeds self comps
    { w0 with Registries := Function.update w0.Registries self TSet.Empty } hLive
  exact ⟨⟨gs, self⟩, w1, by
    unfold FGlobalComponentRecreateRenderStateContext.Construct
    simp only [h]⟩

/-- The shape of a successfully constructed global guard. -/
theorem global_construct_ok {self : TSetPtr} {comps : List UActorComponentPtr} {w0 w1 : World}
    {G : FGlobalComponentRecreateRenderStateContext}
    (hC : FGlobalComponentRecreateRenderStateContext.Construct self comps w0 =
      Outcome.ok G w1) :
    G.ScenesToUpdateAllPrimitiveSceneInfos = self ∧
    ConstructContexts self comps
      { w0 with Registries := Function.update w0.Registries self TSet.Empty } =
      Outcome.ok G.ComponentContexts w1 := by
  unfold FGlobalComponentRecreateRenderStateContext.Construct at hC
  simp only at hC
  split at hC
  · cases hC
  · rename_i gs w' heq
    cases hC
    exact ⟨rfl, heq⟩

theorem count_consolidated_eq_zero {evs : List RenderCall}
    (h : ∀ e ∈ evs, e.IsConsolidated = false) (s : FSceneInterfacePtr) :
    evs.count (RenderCall.UpdateAllPrimitiveSceneInfos s) = 0 := by
  apply List.count_eq_zero_of_not_mem
  intro hmem
  have := h _ hmem
  simp [RenderCall.IsConsolidated] at this

theorem count_consolidated_pass (l : List FSceneInterfacePtr) (s : FSceneInterfacePtr) :
    (l.map RenderCall.UpdateAllPrimitiveSceneInfos).count
      (RenderCall.UpdateAllPrimitiveSceneInfos s) = l.count s :=
  List.count_map_of_injective l _ (fun a b h => by cases h; rfl) s

/-- What the destructor of a global guard does, given that all its per-component guards
notify its member set: the guards are destroyed without any destroy call and without any
consolidated update, then one update per element of the member set is issued. -/
theorem global_destruct_spec (G : FGlobalComponentRecreateRenderStateContext)
    (hregs : ∀ g ∈ G.ComponentContexts, g.ScenesToUpdateAllPrimitiveSceneInfos =
      some G.ScenesToUpdateAllPrimitiveSceneInfos) (w : World) :
    ∃ w' evs, DestructContexts G.ComponentContexts w = Outcome.ok () w' ∧
      G.Destruct w = Outcome.ok () (G.UpdateAllPrimitiveSceneInfos w') ∧
      w'.Calls = w.Calls ++ evs ∧
      (∀ e ∈ evs, e.IsDestroy = false ∧ e.IsConsolidated = false) ∧
      CallsBetween w (G.Destruct w).world = evs ++
        (w'.Registries G.ScenesToUpdateAllPrimitiveSceneInfos).Elements.map
          RenderCall.UpdateAllPrimitiveSceneInfos := by
  obtain ⟨w', hw', ⟨evs, hevs, hevs'⟩, -⟩ :=
    destructContexts_spec G.ScenesToUpdateAllPrimitiveSceneInfos G.ComponentContexts w hregs
  have hD : G.Destruct w = Outcome.ok () (G.UpdateAllPrimitiveSceneInfos w') := by
    unfold FGlobalComponentRecreateRenderStateContext.Destruct
    rw [hw']
  refine ⟨w', evs, hw', hD, hevs, hevs', ?_⟩
  rw [hD]
  apply callsBetween_of_append
  simp [Outcome.world, FGlobalComponentRecreateRenderStateContext.UpdateAllPrimitiveSceneInfos,
    hevs]

/-- C7. Over any enumeration of reachable components the global guard is constructed
successfully.  After construction its member set holds exactly the scenes of the enumerated
components that were registered with render state created (the affected scenes), every
enumerated registered component lacks render state, and no consolidated update has been
issued yet.  In whatever world the destructor runs, it issues at most one consolidated
update per scene, and exactly one for every scene that is in the member set at that time;
so whenever the member set is still what construction left, whatever else happened to the
components in between, each affected scene receives exactly one consolidated update,
however many components list it, and, when the enumerated components still list the scenes
they listed, every other scene receives none.  When nobody changes the world in between,
the same counts hold over all the calls of the lifetime and every component is back in the
state it had before construction. -/
theorem C7_consolidated_pass_once_per_scene (self : TSetPtr)
    (comps : List UActorComponentPtr) (w0 : World)
    (hLive : ∀ c ∈ comps, (w0.Components c).IsUnreachable = false) :
    ∃ G w1, FGlobalComponentRecreateRenderStateContext.Construct self comps w0 =
      Outcome.ok G w1 ∧
    (∀ s, s ∈ (w1.Registries self).Elements ↔
      ∃ c ∈ comps, (w0.Components c).IsRegistered = true ∧
        (w0.Components c).IsRenderStateCreated = true ∧ s ∈ (w0.Components c).Scenes) ∧
    (∀ c ∈ comps, (w0.Components c).IsRegistered = true →
      (w1.Components c).IsRenderStateCreated = false) ∧
    (∀ e ∈ CallsBetween w0 w1, e.IsConsolidated = false) ∧
    (∀ (w2 : World) (s : FSceneInterfacePtr),
      (CallsBetween w2 (G.Destruct w2).world).count
        (RenderCall.UpdateAllPrimitiveSceneInfos s) ≤ 1) ∧
    (∀ s, (∃ c ∈ comps, (w0.Components c).IsRegistered = true ∧
        (w0.Components c).IsRenderStateCreated = true ∧ s ∈ (w0.Components c).Scenes) →
      (CallsBetween w0 (G.Destruct w1).world).count
        (RenderCall.UpdateAllPrimitiveSceneInfos s) = 1) ∧
    (∀ s, (¬ ∃ c ∈ comps, (w0.Components c).IsRegistered = true ∧
        (w0.Components c).IsRenderStateCreated = true ∧ s ∈ (w0.Components c).Scenes) →
      (CallsBetween w0 (G.Destruct w1).world).count
        (RenderCall.UpdateAllPrimitiveSceneInfos s) = 0) ∧
    (∀ c, (G.Destruct w1).world.Components c = w0.Components c) ∧
    (∀ (w2 : World) (s : FSceneInterfacePtr), s ∈ (w2.Registries self).Elements →
      (CallsBetween w2 (G.Destruct w2).world).count
        (RenderCall.UpdateAllPrimitiveSceneInfos s) = 1) ∧
    (∀ w2 : World, w2.Registries self = w1.Registries self →
      ∀ s, (∃ c ∈ comps, (w0.Components c).IsRegistered = true ∧
          (w0.Components c).IsRenderStateCreated = true ∧ s ∈ (w0.Components c).Scenes) →
        (CallsBetween w2 (G.Destruct w2).world).count
          (RenderCall.UpdateAllPrimitiveSceneInfos s) = 1) ∧
    (∀ w2 : World, w2.Registries self = w1.Registries self →
      (∀ c ∈ comps, (w2.Components c).Scenes = (w0.Components c).Scenes) →
      ∀ s, (¬ ∃ c ∈ comps, (w0.Components c).IsRegistered = true ∧
          (w0.Components c).IsRenderStateCreated = true ∧ s ∈ (w0.Components c).Scenes) →
        (CallsBetween w2 (G.Destruct w2).world).count
          (RenderCall.UpdateAllPrimitiveSceneInfos s) = 0) := by
  obtain ⟨G, w1, hC⟩ := global_construct_succeeds self comps w0 hLive
  refine ⟨G, w1, hC, ?_⟩
  obtain ⟨hself, hCC⟩ := global_construct_ok hC
  obtain ⟨⟨evs1, hevs1, hevs1'⟩, hcomp, -, hmem, hreg, hact⟩ :=
    constructContexts_spec self comps _ w1 G.ComponentContexts hCC
  simp only [Function.update_same, TSet.Empty, List.not_mem_nil, false_or] at hmem
  -- the destructor run in an arbitrary world
  have hgen : ∀ w2 : World, ∃ w2' : World,
      (∀ s, s ∈ (w2'.Registries self).Elements ↔ s ∈ (w2.Registries self).Elements ∨
        ∃ p, (∃ g ∈ G.ComponentContexts, g.Component = some p) ∧
          (w2.Components p).IsRegistered = true ∧
          (w2.Components p).IsRenderStateCreated = false ∧
          s ∈ (w2.Components p).Scenes) ∧
      ∀ s, (CallsBetween w2 (G.Destruct w2).world).count
        (RenderCall.UpdateAllPrimitiveSceneInfos s) =
          (w2'.Registries self).Elements.count s := by
    intro w2
    obtain ⟨w2', hw2', ⟨evs, hevs, hevs'⟩, -, -, -, hm⟩ :=
      destructContexts_spec self G.ComponentContexts w2 hreg
    have hD2 : G.Destruct w2 = Outcome.ok () (G.UpdateAllPrimitiveSceneInfos w2') := by
      unfold FGlobalComponentRecreateRenderStateContext.Destruct
      rw [hw2']
    have hcb : CallsBetween w2 (G.Destruct w2).world = evs ++
        (w2'.Registries self).Elements.map RenderCall.UpdateAllPrimitiveSceneInfos := by
      rw [hD2]
      apply callsBetween_of_append
      simp [Outcome.world,
        FGlobalComponentRecreateRenderStateContext.UpdateAllPrimitiveSceneInfos, hevs, hself]
    refine ⟨w2', hm, ?_⟩
    intro s
    rw [hcb, List.count_append, count_consolidated_eq_zero (fun e he => (hevs' e he).2),
      count_consolidated_pass, Nat.zero_add]
  have hregs : ∀ g ∈ G.ComponentContexts, g.ScenesToUpdateAllPrimitiveSceneInfos =
      some G.ScenesToUpdateAllPrimitiveSceneInfos := by
    rw [hself]
    exact hreg
  have hcb1 : CallsBetween w0 w1 = evs1 := callsBetween_of_append hevs1
  -- the destruction loop run in the world left by construction
  obtain ⟨w', hw', ⟨evs2, hevs2, hevs2'⟩, hset, hkeep, -, hmem'⟩ :=
    destructContexts_spec self G.ComponentContexts w1 hreg
  have hD : G.Destruct w1 = Outcome.ok () (G.UpdateAllPrimitiveSceneInfos w') := by
    unfold FGlobalComponentRecreateRenderStateContext.Destruct
    rw [hw']
  have hscenes : ∀ p, (w1.Components p).Scenes = (w0.Components p).Scenes := by
    intro p
    rw [hcomp p]
    split <;> rfl
  have hfinal : ∀ s, s ∈ (w'.Registries self).Elements ↔
      ∃ c ∈ comps, (w0.Components c).IsRegistered = true ∧
        (w0.Components c).IsRenderStateCreated = true ∧ s ∈ (w0.Components c).Scenes := by
    intro s
    rw [hmem' s, hmem s]
    constructor
    · rintro (h | ⟨p, hp, -, -, h4⟩)
      · exact h
      · obtain ⟨h1, h2, h3⟩ := (hact p).mp hp
        exact ⟨p, h1, h2, h3, by rw [← hscenes p]; exact h4⟩
    · exact Or.inl
  have hlife : CallsBetween w0 (G.Destruct w1).world = evs1 ++ evs2 ++
      (w'.Registries self).Elements.map RenderCall.UpdateAllPrimitiveSceneInfos := by
    rw [hD]
    apply callsBetween_of_append
    simp [Outcome.world,
      FGlobalComponentRecreateRenderStateContext.UpdateAllPrimitiveSceneInfos, hevs2, hevs1,
      hself]
  have hcount : ∀ s, (CallsBetween w0 (G.Destruct w1).world).count
      (RenderCall.UpdateAllPrimitiveSceneInfos s) = (w'.Registries self).Elements.count s := by
    intro s
    rw [hlife, List.count_append, List.count_append,
      count_consolidated_eq_zero (fun e he => (hevs1' e he).2),
      count_consolidated_eq_zero (fun e he => (hevs2' e he).2), count_consolidated_pass]
    simp
  have hInSet : ∀ (w2 : World) (s : FSceneInterfacePtr),
      s ∈ (w2.Registries self).Elements →
      (CallsBetween w2 (G.Destruct w2).world).count
        (RenderCall.UpdateAllPrimitiveSceneInfos s) = 1 := by
    intro w2 s hs
    obtain ⟨w2', hm, hc⟩ := hgen w2
    rw [hc s]
    exact List.count_eq_one_of_mem (w2'.Registries self).distinct ((hm s).mpr (Or.inl hs))
  refine ⟨hmem, ?_, ?_, ?_, ?_, ?_, ?_, hInSet, ?_, ?_⟩
  · intro c hc hReg
    rw [hcomp c]
    split
    · rfl
    · rename_i hn
      cases h : (w0.Components c).IsRenderStateCreated
      · rfl
      · exact absurd ⟨hc, hReg, h⟩ hn
  · intro e he
    rw [hcb1] at he
    exact (hevs1' e he).2
  · intro w2 s
    obtain ⟨w2', evs, -, -, -, hevs', hcb⟩ := global_destruct_spec G hregs w2
    rw [hcb, List.count_append, count_consolidated_eq_zero (fun e he => (hevs' e he).2),
      count_consolidated_pass, Nat.zero_add]
    exact List.nodup_iff_count_le_one.mp (w2'.Registries _).distinct s
  · intro s hs
    rw [hcount s]
    exact List.count_eq_one_of_mem (w'.Registries self).distinct ((hfinal s).mpr hs)
  · intro s hs
    rw [hcount s]
    exact List.count_eq_zero_of_not_mem (fun h => hs ((hfinal s).mp h))
  · intro c
    rw [hD]
    simp only [Outcome.world,
      FGlobalComponentRecreateRenderStateContext.UpdateAllPrimitiveSceneInfos]
    by_cases hA : c ∈ comps ∧ (w0.Components c).IsRegistered = true ∧
        (w0.Components c).IsRenderStateCreated = true
    · have h1 : w1.Components c =
          { w0.Components c with IsRenderStateCreated := false } := by
        rw [hcomp c]
        exact if_pos hA
      rw [hset c ((hact c).mpr hA) (by rw [h1]; exact hA.2.1) (by rw [h1]), h1]
      cases hk : w0.Components c
      simp only [hk] at hA
      simp [hA.2.2]
    · have h1 : w1.Components c = w0.Components c := by
        rw [hcomp c]
        exact if_neg hA
      rw [hkeep c (fun h => hA ((hact c).mp h.1)), h1]
  · intro w2 hsame s hs
    apply hInSet w2 s
    rw [hsame]
    exact (hmem s).mpr hs
  · intro w2 hsame hscenes2 s hs
    obtain ⟨w2', hm, hc⟩ := hgen w2
    rw [hc s]
    apply List.count_eq_zero_of_not_mem
    intro hin
    rcases (hm s).mp hin with h | ⟨p, hp, -, -, h4⟩
    · rw [hsame] at h
      exact hs ((hmem s).mp h)
    · obtain ⟨h1, h2, h3⟩ := (hact p).mp hp
      exact hs ⟨p, h1, h2, h3, by rw [← hscenes2 p h1]; exact h4⟩

theorem C7_witness :
    ScenarioConstructed = Outcome.ok ScenarioGuard ScenarioConstructed.world ∧
    ((ScenarioConstructed.world.Components 1).IsRenderStateCreated = false ∧
      (ScenarioConstructed.world.Components 2).IsRenderStateCreated = false ∧
      (ScenarioConstructed.world.Components 3).IsRenderStateCreated = false) ∧
    (ScenarioConstructed.world.Registries 0).Elements = [10, 20] ∧
    ScenarioDestroyed.isFatal = false ∧
    ((ScenarioDestroyed.world.Components 1).IsRenderStateCreated = true ∧
      (ScenarioDestroyed.world.Components 2).IsRenderStateCreated = true ∧
      (ScenarioDestroyed.world.Components 3).IsRenderStateCreated = true) ∧
    CallsBetween ExampleWorld ScenarioDestroyed.world =
      [RenderCall.DestroyRenderState_Concurrent 1,
        RenderCall.UpdateAllPrimitiveSceneInfosForSingleComponent 1 (some 0),
        RenderCall.DestroyRenderState_Concurrent 2,
        RenderCall.UpdateAllPrimitiveSceneInfosForSingleComponent 2 (some 0),
        RenderCall.DestroyRenderState_Concurrent 3,
        RenderCall.UpdateAllPrimitiveSceneInfosForSingleComponent 3 (some 0),
        RenderCall.CreateRenderState_Concurrent 1,
        RenderCall.UpdateAllPrimitiveSceneInfosForSingleComponent 1 (some 0),
        RenderCall.CreateRenderState_Concurrent 2,
        RenderCall.UpdateAllPrimitiveSceneInfosForSingleComponent 2 (some 0),
        RenderCall.CreateRenderState_Concurrent 3,
        RenderCall.UpdateAllPrimitiveSceneInfosForSingleComponent 3 (some 0),
        RenderCall.UpdateAllPrimitiveSceneInfos 10,
        RenderCall.UpdateAllPrimitiveSceneInfos 20] ∧
    (CallsBetween ExampleWorld ScenarioDestroyed.world).countP RenderCall.IsConsolidated = 2 ∧
    (∀ c ∈ [1, 2, 3], (ExampleWorld.Components c).IsUnreachable = false) ∧
    ∃ G w1, FGlobalComponentRecreateRenderStateContext.Construct 0 [1, 2, 3] ExampleWorld =
        Outcome.ok G w1 ∧
      (CallsBetween ExampleWorld (G.Destruct w1).world).count
        (RenderCall.UpdateAllPrimitiveSceneInfos 10) = 1 ∧
      (CallsBetween ExampleWorld (G.Destruct w1).world).count
        (RenderCall.UpdateAllPrimitiveSceneInfos 20) = 1 ∧
      (CallsBetween ExampleWorld (G.Destruct w1).world).count
        (RenderCall.UpdateAllPrimitiveSceneInfos 30) = 0 ∧
      (CallsBetween (Unregister 3 w1) (G.Destruct (Unregister 3 w1)).world).count
        (RenderCall.UpdateAllPrimitiveSceneInfos 10) = 1 ∧
      (CallsBetween (Unregister 3 w1) (G.Destruct (Unregister 3 w1)).world).count
        (RenderCall.UpdateAllPrimitiveSceneInfos 20) = 1 := by
  refine ⟨rfl, ⟨rfl, rfl, rfl⟩, by decide, rfl, ⟨rfl, rfl, rfl⟩, by decide, by decide,
    by decide, ?_⟩
  obtain ⟨G, w1, hC, -, -, -, -, hOne, hNone, -, -, hAny, -⟩ :=
    C7_consolidated_pass_once_per_scene 0 [1, 2, 3] ExampleWorld (by decide)
  exact ⟨G, w1, hC, hOne 10 ⟨1, by decide, rfl, rfl, by decide⟩,
    hOne 20 ⟨3, by decide, rfl, rfl, by decide⟩, hNone 30 (by decide),
    hAny (Unregister 3 w1) rfl 10 ⟨1, by decide, rfl, rfl, by decide⟩,
    hAny (Unregister 3 w1) rfl 20 ⟨3, by decide, rfl, rfl, by decide⟩⟩

/-- C8. Over any enumeration of reachable components the global guard is constructed
successfully.  Its construction only extends the call list, issues no create call, and leaves every
enumerated registered component without render state; its destruction, in whatever world it
runs, succeeds, only extends the call list and issues no destroy call.  So when the call
list at destruction time extends the one construction left, the whole list is: the calls
before, the construction calls (all destroys among them), whatever was issued in between,
the destruction calls (all creates among them). -/
theorem C8_teardown_precedes_rebuild (self : TSetPtr) (comps : List UActorComponentPtr)
    (w0 : World) (hLive : ∀ c ∈ comps, (w0.Components c).IsUnreachable = false) :
    ∃ G w1, FGlobalComponentRecreateRenderStateContext.Construct self comps w0 =
      Outcome.ok G w1 ∧
    w1.Calls = w0.Calls ++ CallsBetween w0 w1 ∧
    (∀ e ∈ CallsBetween w0 w1, e.IsCreate = false) ∧
    (∀ c ∈ comps, (w0.Components c).IsRegistered = true →
      (w1.Components c).IsRenderStateCreated = false) ∧
    ∀ w2 : World,
      (G.Destruct w2).isFatal = false ∧
      (G.Destruct w2).world.Calls = w2.Calls ++ CallsBetween w2 (G.Destruct w2).world ∧
      (∀ e ∈ CallsBetween w2 (G.Destruct w2).world, e.IsDestroy = false) ∧
      (∀ mid, w2.Calls = w1.Calls ++ mid →
        (G.Destruct w2).world.Calls =
          w0.Calls ++ CallsBetween w0 w1 ++ mid ++
            CallsBetween w2 (G.Destruct w2).world) := by
  obtain ⟨G, w1, hC⟩ := global_construct_succeeds self comps w0 hLive
  refine ⟨G, w1, hC, ?_⟩
  obtain ⟨hself, hCC⟩ := global_construct_ok hC
  obtain ⟨⟨evs1, hevs1, hevs1'⟩, hcomp, -, -, hreg, -⟩ :=
    constructContexts_spec self comps _ w1 G.ComponentContexts hCC
  have hregs : ∀ g ∈ G.ComponentContexts, g.ScenesToUpdateAllPrimitiveSceneInfos =
      some G.ScenesToUpdateAllPrimitiveSceneInfos := by
    rw [hself]
    exact hreg
  have hcb1 : CallsBetween w0 w1 = evs1 := callsBetween_of_append hevs1
  refine ⟨by rw [hcb1]; exact hevs1, ?_, ?_, ?_⟩
  · intro e he
    rw [hcb1] at he
    exact (hevs1' e he).1
  · intro c hc hReg
    rw [hcomp c]
    split
    · rfl
    · rename_i hn
      cases h : (w0.Components c).IsRenderStateCreated
      · rfl
      · exact absurd ⟨hc, hReg, h⟩ hn
  intro w2
  obtain ⟨w', evs2, -, hD, hevs2, hevs2', hcb2⟩ := global_destruct_spec G hregs w2
  have hcalls2 : (G.Destruct w2).world.Calls =
      w2.Calls ++ CallsBetween w2 (G.Destruct w2).world := by
    rw [hcb2, hD]
    simp [Outcome.world,
      FGlobalComponentRecreateRenderStateContext.UpdateAllPrimitiveSceneInfos, hevs2]
  refine ⟨by rw [hD]; rfl, hcalls2, ?_, ?_⟩
  · intro e he
    rw [hcb2] at he
    rcases List.mem_append.mp he with he | he
    · exact (hevs2' e he).1
    · obtain ⟨s, -, rfl⟩ := List.mem_map.mp he
      rfl
  · intro mid hmid
    rw [hcalls2, hmid, hcb1]
    exact congrArg (· ++ mid ++ CallsBetween w2 (G.Destruct w2).world) hevs1

theorem C8_witness :
    (∀ c ∈ [1, 2, 3], (ExampleWorld.Components c).IsUnreachable = false) ∧
    ∃ G w1, FGlobalComponentRecreateRenderStateContext.Construct 0 [1, 2, 3] ExampleWorld =
        Outcome.ok G w1 ∧
      (∀ e ∈ CallsBetween ExampleWorld w1, e.IsCreate = false) ∧
      (∀ e ∈ CallsBetween w1 (G.Destruct w1).world, e.IsDestroy = false) := by
  refine ⟨by decide, ?_⟩
  obtain ⟨G, w1, hC, -, hNoCreate, -, hD⟩ :=
    C8_teardown_precedes_rebuild 0 [1, 2, 3] ExampleWorld (by decide)
  exact ⟨G, w1, hC, hNoCreate, (hD w1).2.2.1⟩

end RecreateRenderState

/-! ## Trace/Config.h -/

namespace TraceConfig

/-- C10. For all definitions whose values lie in the 64-bit range of the preprocessor: after
Trace/Config.h has been processed UE_TRACE_ENABLED is defined; a value it already had is
kept; when it was not defined it becomes 1 exactly when UE_BUILD_SHIPPING evaluates to 0,
IS_PROGRAM evaluates to 0 and at least one of the seven PLATFORM_ values is non-zero, and 0
in every other configuration.  No other definition is changed. -/
theorem C10_trace_enabled_always_defined (d : Defines) :
    (Config_h d).UE_TRACE_ENABLED.isSome = true ∧
    (∀ v, d.UE_TRACE_ENABLED = some v → (Config_h d).UE_TRACE_ENABLED = some v) ∧
    (d.UE_TRACE_ENABLED = none →
      (Config_h d).UE_TRACE_ENABLED = some
        (if Value d.UE_BUILD_SHIPPING = 0 ∧ Value d.IS_PROGRAM = 0 ∧
            (Value d.PLATFORM_WINDOWS ≠ 0 ∨ Value d.PLATFORM_UNIX ≠ 0 ∨
              Value d.PLATFORM_APPLE ≠ 0 ∨ Value d.PLATFORM_PS4 ≠ 0 ∨
              Value d.PLATFORM_XBOXONE ≠ 0 ∨ Value d.PLATFORM_SWITCH ≠ 0 ∨
              Value d.PLATFORM_ANDROID ≠ 0)
          then 1 else 0)) ∧
    Config_h d = { d with UE_TRACE_ENABLED := (Config_h d).UE_TRACE_ENABLED } := by
  refine ⟨?_, ?_, ?_, ?_⟩
  · cases h : d.UE_TRACE_ENABLED with
    | some v => simp [Config_h, h]
    | none =>
      unfold Config_h
      simp only [h, Option.isNone_none, if_true]
      split_ifs <;> simp_all
  · intro v hv
    simp [Config_h, hv]
  · intro hn
    unfold Config_h
    simp only [hn, Option.isNone_none, if_true, Truthy]
    split_ifs <;> simp_all
  · unfold Config_h
    simp only
    split_ifs <;> rfl

theorem C10_witness :
    (Config_h UnixDevelopmentBuild).UE_TRACE_ENABLED = some 1 ∧
    (Config_h { UnixDevelopmentBuild with UE_TRACE_ENABLED := some 5 }).UE_TRACE_ENABLED =
      some 5 ∧
    (Config_h { UnixDevelopmentBuild with UE_BUILD_SHIPPING := some One }).UE_TRACE_ENABLED =
      some 0 ∧
    (Config_h { UnixDevelopmentBuild with PLATFORM_UNIX := some Largest }).UE_TRACE_ENABLED =
      some 1 :=
  ⟨(C10_trace_enabled_always_defined UnixDevelopmentBuild).2.2.1 rfl,
    (C10_trace_enabled_always_defined
      { UnixDevelopmentBuild with UE_TRACE_ENABLED := some 5 }).2.1 5 rfl,
    (C10_trace_enabled_always_defined
      { UnixDevelopmentBuild with UE_BUILD_SHIPPING := some One }).2.2.1 rfl,
    (C10_trace_enabled_always_defined
      { UnixDevelopmentBuild with PLATFORM_UNIX := some Largest }).2.2.1 rfl⟩

end TraceConfig
